import Mathlib

/-!
Verification of the project-dashboard scoring engine (src/app.py).

The engine is embedded shallowly:
* Python floats are modelled as exact rationals (`ℚ`) wherever the code only
  uses field arithmetic, comparisons and clamping; the volatility penalty
  engine, which needs `sqrt` (sample standard deviation) and `tanh`, is
  modelled over `ℝ`.
* `pandas` snapshot rows become the `Row` structure.  An optional column that
  is absent, or whose value is NaN (`pd.notna` fails), is modelled as `none`;
  present numeric values are modelled as NaN-free rationals.
* Dates that went through `pd.to_datetime(..., errors="coerce")` are modelled
  as `Option ℤ` (a day number; `none` models `NaT`).
* Fallible computation paths are modelled with `Except String`: the spot in
  `compute_scores` where a planned-framework row with a NaT date drives
  `int(slip_days)` into `int(nan)` surfaces as an `Except.error`.
* Python `round(x, 1)` is modelled as round-to-nearest on `ℚ` (`round1`);
  Python rounds binary floats half-to-even, which agrees with
  round-to-nearest except at exact representational ties.
-/

namespace Dashboard

/-! ### Small numeric helpers (app.py `clamp`, `round`, numpy reductions) -/

/-- Python `clamp(v, lo=0.0, hi=1.0) = max(lo, min(hi, v))` over `ℚ`. -/
def clamp (v : ℚ) (lo : ℚ := 0) (hi : ℚ := 1) : ℚ := max lo (min hi v)

/-- Python `clamp` over `ℝ`, used inside the volatility penalty engine. -/
noncomputable def clampR (v : ℝ) (lo : ℝ := 0) (hi : ℝ := 1) : ℝ := max lo (min hi v)

/-- Python `round(x, 1)` on a rational value. -/
def round1 (x : ℚ) : ℚ := ((round (10 * x) : ℤ) : ℚ) / 10

/-- Python `round(x, 2)` on a rational value. -/
def round2 (x : ℚ) : ℚ := ((round (100 * x) : ℤ) : ℚ) / 100

/-- Python `round(x, 3)` on a rational value. -/
def round3 (x : ℚ) : ℚ := ((round (1000 * x) : ℤ) : ℚ) / 1000

/-- Python `round(x, 1)` applied to a real value, producing the stored
rational score. -/
noncomputable def roundR1 (x : ℝ) : ℚ := ((round (10 * x) : ℤ) : ℚ) / 10

/-- Consecutive differences, `np.diff`. -/
def npDiff (l : List ℚ) : List ℚ := List.zipWith (fun b a => b - a) l.tail l

/-- Arithmetic mean, `np.mean` (callers guard against the empty list). -/
def listMean (l : List ℚ) : ℚ := l.sum / (l.length : ℚ)

/-- Sample variance with `ddof=1`, the square of `np.std(_, ddof=1)`. -/
def sampleVar (l : List ℚ) : ℚ :=
  (l.map (fun x => (x - listMean l) ^ 2)).sum / ((l.length : ℚ) - 1)

/-- Sample standard deviation `np.std(_, ddof=1)`. -/
noncomputable def sampleStd (l : List ℚ) : ℝ := Real.sqrt ((sampleVar l : ℚ) : ℝ)

/-- Python `history[-4:]`. -/
def lastN (n : ℕ) (l : List ℚ) : List ℚ := l.drop (l.length - n)

/-! ### Volatility Penalty Engine (app.py lines 31-162)

Only the returned penalty is modelled; the returned breakdown dict is a
diagnostic bag echoed into `raw` and is not needed by any claim. -/

/-- Directional-aware forecast volatility penalty for the Confidence Score
(`directional_cov_penalty`, app.py lines 31-102). -/
noncomputable def directional_cov_penalty (slip_history : List ℚ) : ℝ :=
  if slip_history.length < 2 then 0
  else
    let deltas := npDiff slip_history
    let mean_delta : ℚ := listMean deltas
    let std_delta : ℝ := if 2 ≤ deltas.length then sampleStd deltas else 0
    let reference : ℚ := max |mean_delta| 10
    let delta_cov : ℝ := clampR (std_delta / (reference : ℝ)) 0 2
    let base_penalty : ℝ := clampR (delta_cov / (1 / 2)) * 30
    let dir_factor : ℝ := Real.tanh ((mean_delta : ℝ) / 7)
    let dir_multiplier : ℝ := 1 + 0.4 * dir_factor
    let directional_floor : ℝ := clampR dir_factor 0 1 * 8
    clampR (max (base_penalty * dir_multiplier) directional_floor) 0 40

/-- Directional-aware throughput volatility penalty for the Kanban Confidence
Score (`throughput_cov_penalty`, app.py lines 104-162); mirror of
`directional_cov_penalty` with inverted direction sense and a reference floor
of 1 instead of 10. -/
noncomputable def throughput_cov_penalty (throughput_history : List ℚ) : ℝ :=
  if throughput_history.length < 2 then 0
  else
    let deltas := npDiff throughput_history
    let mean_delta : ℚ := listMean deltas
    let std_delta : ℝ := if 2 ≤ deltas.length then sampleStd deltas else 0
    let reference : ℚ := max |mean_delta| 1
    let delta_cov : ℝ := clampR (std_delta / (reference : ℝ)) 0 2
    let base_penalty : ℝ := clampR (delta_cov / (1 / 2)) * 30
    let dir_factor : ℝ := Real.tanh ((mean_delta : ℝ) / 3)
    let dir_multiplier : ℝ := 1 - 0.4 * dir_factor
    let directional_floor : ℝ := clampR (-dir_factor) 0 1 * 8
    clampR (max (base_penalty * dir_multiplier) directional_floor) 0 40

/-! ### Generic facts about clamping and tanh -/

lemma clampR_le (v lo hi : ℝ) (h : lo ≤ hi) : clampR v lo hi ≤ hi :=
  max_le h (min_le_left _ _)

lemma le_clampR (v lo hi : ℝ) : lo ≤ clampR v lo hi := le_max_left _ _

lemma clampR_eq_self (v lo hi : ℝ) (h1 : lo ≤ v) (h2 : v ≤ hi) :
    clampR v lo hi = v := by
  unfold clampR
  rw [min_eq_right h2, max_eq_right h1]

lemma clamp_le (v lo hi : ℚ) (h : lo ≤ hi) : clamp v lo hi ≤ hi :=
  max_le h (min_le_left _ _)

lemma le_clamp (v lo hi : ℚ) : lo ≤ clamp v lo hi := le_max_left _ _

lemma clamp01_mem (v : ℚ) : 0 ≤ clamp v ∧ clamp v ≤ 1 :=
  ⟨le_clamp v 0 1, clamp_le v 0 1 (by norm_num)⟩

lemma tanh_pos_of_pos {x : ℝ} (hx : 0 < x) : 0 < Real.tanh x := by
  rw [Real.tanh_eq_sinh_div_cosh]
  exact div_pos (Real.sinh_pos_iff.mpr hx) (Real.cosh_pos x)

lemma tanh_lt_one' (x : ℝ) : Real.tanh x < 1 := by
  rw [Real.tanh_eq_sinh_div_cosh]
  exact (div_lt_one (Real.cosh_pos x)).mpr (Real.sinh_lt_cosh x)

lemma tanh_neg_of_neg {x : ℝ} (hx : x < 0) : Real.tanh x < 0 := by
  have : Real.tanh x = -Real.tanh (-x) := by
    rw [Real.tanh_neg]; ring
  rw [this]
  have := tanh_pos_of_pos (x := -x) (by linarith)
  linarith

/-! ### Concrete evaluations of the penalty engine -/

lemma npDiff_worsening : npDiff [0, 14, 28, 42] = [14, 14, 14] := by
  norm_num [npDiff]

lemma npDiff_improving : npDiff [42, 28, 14, 0] = [-14, -14, -14] := by
  norm_num [npDiff]

lemma listMean_const14 : listMean [14, 14, 14] = 14 := by
  norm_num [listMean]

lemma listMean_const_neg14 : listMean [-14, -14, -14] = -14 := by
  norm_num [listMean]

lemma sampleStd_const14 : sampleStd [14, 14, 14] = 0 := by
  have h : sampleVar [14, 14, 14] = 0 := by
    norm_num [sampleVar, listMean]
  rw [sampleStd, h]
  norm_num [Real.sqrt_zero]

lemma sampleStd_const_neg14 : sampleStd [-14, -14, -14] = 0 := by
  have h : sampleVar [-14, -14, -14] = 0 := by
    norm_num [sampleVar, listMean]
  rw [sampleStd, h]
  norm_num [Real.sqrt_zero]

/-- A steadily worsening slip history earns exactly the directional floor:
with all deltas equal the erraticism penalty vanishes, leaving
`8 * tanh(mean/7) = 8 * tanh 2`. -/
lemma dcp_worsening_eval : directional_cov_penalty [0, 14, 28, 42] = 8 * Real.tanh 2 := by
  have ht0 : (0 : ℝ) < Real.tanh 2 := tanh_pos_of_pos (by norm_num)
  have ht1 : Real.tanh 2 < 1 := tanh_lt_one' 2
  rw [directional_cov_penalty]
  rw [if_neg (by norm_num)]
  simp only [npDiff_worsening, listMean_const14]
  rw [if_pos (by norm_num), sampleStd_const14]
  have habs : |(14 : ℚ)| = 14 := by norm_num
  rw [habs]
  have hmax : max (14 : ℚ) 10 = 14 := by norm_num
  rw [hmax]
  have hz : (0 : ℝ) / ((14 : ℚ) : ℝ) = 0 := by norm_num
  rw [hz]
  have hc0 : clampR 0 0 2 = 0 := clampR_eq_self 0 0 2 le_rfl (by norm_num)
  rw [hc0]
  have hb : clampR (0 / (1 / 2)) 0 1 = 0 := by
    rw [show ((0 : ℝ) / (1 / 2)) = 0 by norm_num]
    exact clampR_eq_self 0 0 1 le_rfl (by norm_num)
  rw [hb]
  have harg : (((14 : ℚ) : ℝ) / 7) = 2 := by norm_num
  rw [harg]
  have hfl : clampR (Real.tanh 2) 0 1 = Real.tanh 2 :=
    clampR_eq_self _ 0 1 ht0.le ht1.le
  rw [hfl]
  have hmax2 : max ((0 : ℝ) * 30 * (1 + 0.4 * Real.tanh 2)) (Real.tanh 2 * 8)
      = Real.tanh 2 * 8 := by
    rw [max_eq_right]
    nlinarith
  rw [hmax2]
  rw [clampR_eq_self _ 0 40 (by nlinarith) (by nlinarith)]
  ring

/-- A steadily improving slip history earns no penalty at all: zero
erraticism and an improving direction give no floor. -/
lemma dcp_improving_eval : directional_cov_penalty [42, 28, 14, 0] = 0 := by
  have ht0 : Real.tanh (-2) < 0 := tanh_neg_of_neg (by norm_num)
  rw [directional_cov_penalty]
  rw [if_neg (by norm_num)]
  simp only [npDiff_improving, listMean_const_neg14]
  rw [if_pos (by norm_num), sampleStd_const_neg14]
  have habs : |(-14 : ℚ)| = 14 := by norm_num
  rw [habs]
  have hmax : max (14 : ℚ) 10 = 14 := by norm_num
  rw [hmax]
  have hz : (0 : ℝ) / ((14 : ℚ) : ℝ) = 0 := by norm_num
  rw [hz]
  have hc0 : clampR 0 0 2 = 0 := clampR_eq_self 0 0 2 le_rfl (by norm_num)
  rw [hc0]
  have hb : clampR (0 / (1 / 2)) 0 1 = 0 := by
    rw [show ((0 : ℝ) / (1 / 2)) = 0 by norm_num]
    exact clampR_eq_self 0 0 1 le_rfl (by norm_num)
  rw [hb]
  have harg : (((-14 : ℚ) : ℝ) / 7) = -2 := by norm_num
  rw [harg]
  have hfl : clampR (Real.tanh (-2)) 0 1 = 0 := by
    unfold clampR
    rw [min_eq_right (by linarith), max_eq_left (by linarith)]
  rw [hfl]
  have hz30 : ((0 : ℝ) * 30 * (1 + 0.4 * Real.tanh (-2))) = 0 := by ring
  rw [hz30]
  have hmax0 : ((0 : ℝ) ⊔ 0 * 8) = 0 := by rw [zero_mul, max_self]
  rw [hmax0]
  exact clampR_eq_self 0 0 40 le_rfl (by norm_num)

/-! ### Claims C3 and C4 -/

/-- C3: for slip history `[0,14,28,42]` (steadily worsening) versus
`[42,28,14,0]` (steadily improving, identical delta magnitudes and identical
sample standard deviation of deltas), `directional_cov_penalty` returns a
strictly larger penalty for the worsening series. -/
theorem claim_C3_directional_asymmetry :
    directional_cov_penalty [42, 28, 14, 0] < directional_cov_penalty [0, 14, 28, 42] := by
  rw [dcp_worsening_eval, dcp_improving_eval]
  have := tanh_pos_of_pos (x := 2) (by norm_num)
  nlinarith

/-- C4: `directional_cov_penalty` and its throughput mirror return penalty 0
for every input sequence with fewer than 2 observations, and for every input
sequence the returned penalty lies in `[0, 40]`. -/
theorem claim_C4_penalty_floor_ceiling (l : List ℚ) :
    (l.length < 2 → directional_cov_penalty l = 0) ∧
    (0 ≤ directional_cov_penalty l ∧ directional_cov_penalty l ≤ 40) ∧
    (l.length < 2 → throughput_cov_penalty l = 0) ∧
    (0 ≤ throughput_cov_penalty l ∧ throughput_cov_penalty l ≤ 40) := by
  refine ⟨fun h => ?_, ⟨?_, ?_⟩, fun h => ?_, ⟨?_, ?_⟩⟩
  · rw [directional_cov_penalty, if_pos h]
  · rw [directional_cov_penalty]
    split
    · exact le_rfl
    · exact le_clampR _ 0 40
  · rw [directional_cov_penalty]
    split
    · norm_num
    · exact clampR_le _ 0 40 (by norm_num)
  · rw [throughput_cov_penalty, if_pos h]
  · rw [throughput_cov_penalty]
    split
    · exact le_rfl
    · exact le_clampR _ 0 40
  · rw [throughput_cov_penalty]
    split
    · norm_num
    · exact clampR_le _ 0 40 (by norm_num)

/-- C4 witness: the singleton history `[5]` has fewer than 2 observations and
both penalties evaluate to 0, within `[0, 40]`. -/
theorem claim_C4_witness :
    directional_cov_penalty [5] = 0 ∧ throughput_cov_penalty [5] = 0 ∧
    (0 ≤ directional_cov_penalty [5] ∧ directional_cov_penalty [5] ≤ 40) :=
  ⟨(claim_C4_penalty_floor_ceiling [5]).1 (by norm_num),
   (claim_C4_penalty_floor_ceiling [5]).2.2.1 (by norm_num),
   (claim_C4_penalty_floor_ceiling [5]).2.1⟩

/-! ### Threshold configuration (app.py lines 8-26) -/

structure Thresholds where
  sched_lag_max : ℚ
  slip_days_max : ℚ
  net_backlog_max : ℚ
  req_churn_max : ℚ
  defect_escape_max : ℚ
  crit_defect_ratio : ℚ
  blocked_days_max : ℚ
  unplanned_max : ℚ
  dep_count_max : ℚ
  cpi_floor : ℚ
  spi_floor : ℚ
  milestone_floor : ℚ
  cycle_time_max : ℚ
  throughput_floor : ℚ
  wip_overage_max : ℚ
  aging_wip_max : ℚ

/-- DEFAULT_THRESHOLDS of app.py lines 8-26. -/
def DEFAULT_THRESHOLDS : Thresholds where
  sched_lag_max := 0.20
  slip_days_max := 140
  net_backlog_max := 50
  req_churn_max := 15
  defect_escape_max := 0.15
  crit_defect_ratio := 2.0
  blocked_days_max := 10
  unplanned_max := 0.60
  dep_count_max := 15
  cpi_floor := 0.70
  spi_floor := 0.70
  milestone_floor := 0.50
  cycle_time_max := 30
  throughput_floor := 0.40
  wip_overage_max := 0.50
  aging_wip_max := 5

/-! ### Snapshot rows

One weekly snapshot row, after the consuming layer has parsed the CSV and
`compute_scores` has coerced the date columns (`pd.to_datetime` with
`errors="coerce"`, app.py lines 309-311).  An optional column that is absent
from the frame, or whose value is NaN, is modelled as `none`; present numeric
values are NaN-free rationals.  `delivery_framework` is the already
stripped/lowercased tag of app.py line 323. -/

structure Row where
  project_name : String
  delivery_framework : String
  planned_end_date : Option ℤ
  forecast_end_date : Option ℤ
  actual_percent_complete : ℚ
  planned_percent_complete : ℚ
  backlog_items_added_last_4w : ℚ
  backlog_items_closed_last_4w : ℚ
  requirements_changed_last_4w : ℚ
  defect_escape_rate_last_4w : ℚ
  defects_open_critical : ℚ
  team_size : ℚ
  team_churn_last_4w : ℚ
  blocked_days_last_2w : ℚ
  unplanned_work_ratio_last_4w : ℚ
  dependency_count : ℚ
  planned_cost_to_date : Option ℚ
  actual_cost_to_date : Option ℚ
  milestones_planned_to_date : Option ℚ
  milestones_hit : ℚ
  risks_open : Option ℚ
  risks_high : Option ℚ
  throughput_last_4w : Option ℚ
  avg_cycle_time_last_4w : Option ℚ
  wip_current : Option ℚ
  wip_limit : Option ℚ
  aging_wip_items : Option ℚ

/-- is_kanban, app.py line 324. -/
def isKanban (r : Row) : Bool := r.delivery_framework == "kanban"

/-! ### Shared metric normalizations (app.py lines 326-375) -/

/-- net_backlog, app.py line 329. -/
def net_backlog (r : Row) : ℚ :=
  r.backlog_items_added_last_4w - r.backlog_items_closed_last_4w

/-- m_backlog, app.py line 330. -/
def m_backlog (T : Thresholds) (r : Row) : ℚ :=
  clamp (1 - max 0 (net_backlog r) / T.net_backlog_max)

/-- m_req_churn, app.py line 333. -/
def m_req_churn (T : Thresholds) (r : Row) : ℚ :=
  clamp (1 - r.requirements_changed_last_4w / T.req_churn_max)

/-- m_defect_escape, app.py line 336. -/
def m_defect_escape (T : Thresholds) (r : Row) : ℚ :=
  clamp (1 - r.defect_escape_rate_last_4w / T.defect_escape_max)

/-- Denominator of the critical-defect ratio, `max(1, r["team_size"])`
(app.py line 339): guarded with an explicit floor of 1. -/
def critDefectDenom (r : Row) : ℚ := max 1 r.team_size

/-- crit_ratio, app.py line 339. -/
def crit_ratio (r : Row) : ℚ := r.defects_open_critical / critDefectDenom r

/-- m_critical, app.py line 340. -/
def m_critical (T : Thresholds) (r : Row) : ℚ :=
  clamp (1 - crit_ratio r / T.crit_defect_ratio)

/-- Denominator of the team-churn metric, `r["team_size"]` (app.py line 343).
Unlike line 339 directly above it, this division is NOT guarded: the raw team
size is used as divisor. -/
def teamChurnDenom (r : Row) : ℚ := r.team_size

/-- m_churn, app.py line 343 (the quotient is Lean division on `ℚ`, which
yields 0 at a zero denominator; Python instead produces an inf/nan float
there). -/
def m_churn (r : Row) : ℚ :=
  clamp (1 - r.team_churn_last_4w / teamChurnDenom r)

/-- m_blocked, app.py line 346. -/
def m_blocked (T : Thresholds) (r : Row) : ℚ :=
  clamp (1 - r.blocked_days_last_2w / T.blocked_days_max)

/-- m_deps, app.py line 349. -/
def m_deps (T : Thresholds) (r : Row) : ℚ :=
  clamp (1 - r.dependency_count / T.dep_count_max)

/-- has_evm, app.py lines 352-353: both cost columns present and the actual
cost a positive non-NaN number. -/
def hasEvm (r : Row) : Bool :=
  r.planned_cost_to_date.isSome &&
    match r.actual_cost_to_date with
    | some ac => decide (0 < ac)
    | none => false

/-- planned_pct_safe, app.py line 355: planned percent complete floored at
0.01 before use as an EVM divisor. -/
def plannedPctSafe (r : Row) : ℚ := max r.planned_percent_complete 0.01

/-- ev, app.py line 356 (meaningful only when `hasEvm`). -/
def evVal (r : Row) : ℚ :=
  r.actual_percent_complete * r.planned_cost_to_date.getD 0 / plannedPctSafe r

/-- ac, app.py line 357. -/
def acVal (r : Row) : ℚ := r.actual_cost_to_date.getD 0

/-- pv, app.py line 358. -/
def pvVal (r : Row) : ℚ := r.planned_cost_to_date.getD 0

/-- cpi, app.py line 359. -/
def cpiVal (r : Row) : ℚ := if 0 < acVal r then evVal r / acVal r else 1

/-- spi, app.py line 360. -/
def spiVal (r : Row) : ℚ := if 0 < pvVal r then evVal r / pvVal r else 1

/-- m_cpi, app.py lines 361-364 (1.0 when EVM data is absent). -/
def m_cpi (T : Thresholds) (r : Row) : ℚ :=
  if hasEvm r then clamp ((cpiVal r - T.cpi_floor) / (1 - T.cpi_floor)) else 1

/-- m_spi, app.py lines 362-364. -/
def m_spi (T : Thresholds) (r : Row) : ℚ :=
  if hasEvm r then clamp ((spiVal r - T.spi_floor) / (1 - T.spi_floor)) else 1

/-- has_ms, app.py lines 368-370. -/
def hasMs (r : Row) : Bool :=
  match r.milestones_planned_to_date with
  | some mp => decide (0 < mp)
  | none => false

/-- ms_rate, app.py line 372. -/
def msRate (r : Row) : ℚ := r.milestones_hit / r.milestones_planned_to_date.getD 0

/-- m_milestone, app.py lines 371-375. -/
def m_milestone (T : Thresholds) (r : Row) : ℚ :=
  if hasMs r then clamp ((msRate r - T.milestone_floor) / (1 - T.milestone_floor)) else 1

/-! ### Kanban-specific metrics (app.py lines 377-406) -/

/-- has_kanban_cols, app.py lines 378-382. -/
def hasKanbanCols (r : Row) : Bool := isKanban r && r.throughput_last_4w.isSome

/-- The throughput history after processing row `r` (app.py lines 385-386 and
405-406): a kanban row appends its throughput when present, and appends a
literal `0` when the column is absent; non-kanban rows leave the history
unchanged. -/
def tpHistAfter (tpHist : List ℚ) (r : Row) : List ℚ :=
  if hasKanbanCols r then tpHist ++ [r.throughput_last_4w.getD 0]
  else if isKanban r then tpHist ++ [0]
  else tpHist

/-- tp_avg, app.py lines 387-388: mean of the last-4 window of the history
including the current observation. -/
def tpAvg (tpHist : List ℚ) (r : Row) : ℚ :=
  let tp_window := lastN 4 (tpHistAfter tpHist r)
  if tp_window = [] then r.throughput_last_4w.getD 0 else listMean tp_window

/-- m_throughput, app.py line 390: the current throughput against its rolling
average (average floored at 0.01), floor-mapped like a ratio metric. -/
def m_throughput (T : Thresholds) (tpHist : List ℚ) (r : Row) : ℚ :=
  if hasKanbanCols r then
    clamp ((r.throughput_last_4w.getD 0 / max (tpAvg tpHist r) 0.01 - T.throughput_floor) /
      (1 - T.throughput_floor))
  else 1

/-- avg_ct, app.py line 392: `float(r.get("avg_cycle_time_last_4w", 0) or 0)`. -/
def avgCtVal (r : Row) : ℚ := r.avg_cycle_time_last_4w.getD 0

/-- m_cycle_time, app.py line 393. -/
def m_cycle_time (T : Thresholds) (r : Row) : ℚ :=
  if hasKanbanCols r then clamp (1 - avgCtVal r / T.cycle_time_max) else 1

/-- wip_cur, app.py line 395. -/
def wipCurVal (r : Row) : ℚ := r.wip_current.getD 0

/-- wip_lim, app.py line 396: `float(r.get("wip_limit", 1) or 1)` — an absent
column, a None and a 0 all become 1. -/
def wipLimVal (r : Row) : ℚ :=
  match r.wip_limit with
  | some v => if v = 0 then 1 else v
  | none => 1

/-- Denominator of the WIP overage, `max(wip_lim, 1)` (app.py line 397):
guarded with an explicit floor of 1. -/
def wipLimitSafe (r : Row) : ℚ := max (wipLimVal r) 1

/-- wip_overage, app.py line 397. -/
def wipOverage (r : Row) : ℚ := max 0 (wipCurVal r / wipLimitSafe r - 1)

/-- m_wip_adherence, app.py line 398. -/
def m_wip_adherence (T : Thresholds) (r : Row) : ℚ :=
  if hasKanbanCols r then clamp (1 - wipOverage r / T.wip_overage_max) else 1

/-- aging_items, app.py line 400. -/
def agingVal (r : Row) : ℚ := r.aging_wip_items.getD 0

/-- m_aging_wip, app.py line 401. -/
def m_aging_wip (T : Thresholds) (r : Row) : ℚ :=
  if hasKanbanCols r then clamp (1 - agingVal r / T.aging_wip_max) else 1

/-- has_kanban_target, app.py lines 409-413. -/
def hasKanbanTarget (r : Row) : Bool :=
  isKanban r && r.planned_end_date.isSome && r.forecast_end_date.isSome

/-- slip_days of a kanban row, app.py lines 419-424: the date difference when
a target exists, otherwise 0. -/
def kanbanSlipDays (r : Row) : ℤ :=
  if hasKanbanTarget r then r.forecast_end_date.getD 0 - r.planned_end_date.getD 0 else 0

/-- m_forecast_slip given a slip in days, app.py lines 417 and 421. -/
def m_forecast_slip_of (T : Thresholds) (slip : ℤ) : ℚ :=
  clamp (1 - max 0 (slip : ℚ) / T.slip_days_max)

/-! ### Planned-only metrics (app.py lines 427-436) -/

/-- proximity, app.py line 428 (0 on the kanban branch, line 433). -/
def proximityOf (r : Row) : ℚ :=
  if isKanban r then 0 else clamp ((r.actual_percent_complete - 0.3) / 0.7)

/-- sched_var, app.py line 429 (0 on the kanban branch, line 434). -/
def schedVarOf (r : Row) : ℚ :=
  if isKanban r then 0
  else r.actual_percent_complete - r.planned_percent_complete

/-- m_sched_var, app.py line 430: `clamp((sched_var + lag_max) / lag_max)`. -/
def m_sched_var (T : Thresholds) (r : Row) : ℚ :=
  if isKanban r then 1
  else clamp ((schedVarOf r + T.sched_lag_max) / T.sched_lag_max)

/-- m_unplanned, app.py line 431 (1 on the kanban branch, line 436). -/
def m_unplanned (T : Thresholds) (r : Row) : ℚ :=
  if isKanban r then 1
  else clamp (1 - r.unplanned_work_ratio_last_4w / T.unplanned_max)

/-! ### Kanban weight scheme (app.py lines 439-495) -/

namespace Kanban

/-- w_throughput, app.py line 441. -/
def w_throughput (r : Row) : ℚ := if hasKanbanCols r then 0.14 else 0

/-- w_cycle_time, app.py line 442. -/
def w_cycle_time (r : Row) : ℚ := if hasKanbanCols r then 0.12 else 0

/-- w_wip_adherence, app.py line 443. -/
def w_wip_adherence (r : Row) : ℚ := if hasKanbanCols r then 0.10 else 0

/-- w_aging_wip, app.py line 444. -/
def w_aging_wip (r : Row) : ℚ := if hasKanbanCols r then 0.10 else 0

/-- Shared fixed kanban weights, app.py lines 445-450. -/
def w_backlog : ℚ := 0.09

def w_req_churn : ℚ := 0.09

def w_defect_escape : ℚ := 0.09

def w_critical : ℚ := 0.09

def w_churn : ℚ := 0.09

def w_blocked : ℚ := 0.09

/-- w_cpi, app.py line 451. -/
def w_cpi (r : Row) : ℚ := if hasEvm r then 0.08 else 0

/-- w_milestone, app.py line 452. -/
def w_milestone (r : Row) : ℚ := if hasMs r then 0.07 else 0

/-- w_forecast_slip, app.py line 453. -/
def w_forecast_slip (r : Row) : ℚ := if hasKanbanTarget r then 0.08 else 0

/-- total_w, app.py lines 455-457. -/
def total_w (r : Row) : ℚ :=
  w_throughput r + w_cycle_time r + w_wip_adherence r + w_aging_wip r +
    w_backlog + w_req_churn + w_defect_escape + w_critical +
    w_churn + w_blocked + w_cpi r + w_milestone r + w_forecast_slip r

/-- wn, app.py line 459. -/
def wn (r : Row) (w : ℚ) : ℚ := w / total_w r

/-- The kanban contributions and max_contributions dicts (app.py lines
461-495), fused into one association list
`(label, contribution, max_contribution)` — the source builds the two dicts
with identical keys in the same order. -/
def contribs (T : Thresholds) (tpHist : List ℚ) (r : Row) : List (String × ℚ × ℚ) :=
  (if hasKanbanCols r then
    [("Throughput Rate", wn r (w_throughput r) * m_throughput T tpHist r * 100,
        wn r (w_throughput r) * 100),
     ("Cycle Time", wn r (w_cycle_time r) * m_cycle_time T r * 100,
        wn r (w_cycle_time r) * 100),
     ("WIP Adherence", wn r (w_wip_adherence r) * m_wip_adherence T r * 100,
        wn r (w_wip_adherence r) * 100),
     ("Aging WIP", wn r (w_aging_wip r) * m_aging_wip T r * 100,
        wn r (w_aging_wip r) * 100)]
   else []) ++
  [("Backlog Growth", wn r w_backlog * m_backlog T r * 100, wn r w_backlog * 100),
   ("Req. Churn", wn r w_req_churn * m_req_churn T r * 100, wn r w_req_churn * 100),
   ("Defect Escape Rate", wn r w_defect_escape * m_defect_escape T r * 100,
      wn r w_defect_escape * 100),
   ("Critical Defects", wn r w_critical * m_critical T r * 100, wn r w_critical * 100),
   ("Team Churn", wn r w_churn * m_churn r * 100, wn r w_churn * 100),
   ("Blocked Days", wn r w_blocked * m_blocked T r * 100, wn r w_blocked * 100)] ++
  (if hasEvm r then
    [("CPI (Cost)", wn r (w_cpi r) * m_cpi T r * 100, wn r (w_cpi r) * 100)]
   else []) ++
  (if hasMs r then
    [("Milestone Rate", wn r (w_milestone r) * m_milestone T r * 100,
        wn r (w_milestone r) * 100)]
   else []) ++
  (if hasKanbanTarget r then
    [("Forecast Slip",
        wn r (w_forecast_slip r) * m_forecast_slip_of T (kanbanSlipDays r) * 100,
        wn r (w_forecast_slip r) * 100)]
   else [])

end Kanban

/-! ### Planned weight scheme (app.py lines 497-550) -/

namespace Planned

/-- w_sched_var, app.py line 499. -/
def w_sched_var (r : Row) : ℚ := 0.10 + 0.07 * proximityOf r

/-- w_forecast_slip, app.py line 500. -/
def w_forecast_slip (r : Row) : ℚ := 0.08 + 0.06 * proximityOf r

/-- w_backlog, app.py line 501. -/
def w_backlog : ℚ := 0.08

/-- w_req_churn, app.py line 502. -/
def w_req_churn : ℚ := 0.06

/-- w_defect_escape, app.py line 503. -/
def w_defect_escape (r : Row) : ℚ := 0.08 + 0.04 * proximityOf r

/-- w_critical, app.py line 504. -/
def w_critical (r : Row) : ℚ := 0.07 + 0.03 * proximityOf r

/-- w_churn, app.py line 505. -/
def w_churn : ℚ := 0.06

/-- w_blocked, app.py line 506. -/
def w_blocked : ℚ := 0.06

/-- w_unplanned, app.py line 507: scales DOWN with proximity. -/
def w_unplanned (r : Row) : ℚ := 0.07 - 0.03 * proximityOf r

/-- w_deps, app.py line 508: scales DOWN with proximity. -/
def w_deps (r : Row) : ℚ := 0.05 - 0.02 * proximityOf r

/-- w_cpi, app.py line 509. -/
def w_cpi (r : Row) : ℚ := if hasEvm r then 0.09 else 0

/-- w_spi, app.py line 510. -/
def w_spi (r : Row) : ℚ := if hasEvm r then 0.07 else 0

/-- w_milestone, app.py line 511. -/
def w_milestone (r : Row) : ℚ := if hasMs r then 0.07 else 0

/-- total_w, app.py lines 513-515. -/
def total_w (r : Row) : ℚ :=
  w_sched_var r + w_forecast_slip r + w_backlog + w_req_churn +
    w_defect_escape r + w_critical r + w_churn + w_blocked +
    w_unplanned r + w_deps r + w_cpi r + w_spi r + w_milestone r

/-- wn, app.py line 517. -/
def wn (r : Row) (w : ℚ) : ℚ := w / total_w r

/-- The planned contributions and max_contributions dicts (app.py lines
519-550), fused into one association list
`(label, contribution, max_contribution)`. -/
def contribs (T : Thresholds) (r : Row) (slip : ℤ) : List (String × ℚ × ℚ) :=
  [("Schedule Variance", wn r (w_sched_var r) * m_sched_var T r * 100,
      wn r (w_sched_var r) * 100),
   ("Forecast Slip", wn r (w_forecast_slip r) * m_forecast_slip_of T slip * 100,
      wn r (w_forecast_slip r) * 100),
   ("Backlog Growth", wn r w_backlog * m_backlog T r * 100, wn r w_backlog * 100),
   ("Req. Churn", wn r w_req_churn * m_req_churn T r * 100, wn r w_req_churn * 100),
   ("Defect Escape Rate", wn r (w_defect_escape r) * m_defect_escape T r * 100,
      wn r (w_defect_escape r) * 100),
   ("Critical Defects", wn r (w_critical r) * m_critical T r * 100,
      wn r (w_critical r) * 100),
   ("Team Churn", wn r w_churn * m_churn r * 100, wn r w_churn * 100),
   ("Blocked Days", wn r w_blocked * m_blocked T r * 100, wn r w_blocked * 100),
   ("Unplanned Work", wn r (w_unplanned r) * m_unplanned T r * 100,
      wn r (w_unplanned r) * 100),
   ("Dependencies", wn r (w_deps r) * m_deps T r * 100, wn r (w_deps r) * 100)] ++
  (if hasEvm r then
    [("CPI (Cost)", wn r (w_cpi r) * m_cpi T r * 100, wn r (w_cpi r) * 100),
     ("SPI (Schedule)", wn r (w_spi r) * m_spi T r * 100, wn r (w_spi r) * 100)]
   else []) ++
  (if hasMs r then
    [("Milestone Rate", wn r (w_milestone r) * m_milestone T r * 100,
        wn r (w_milestone r) * 100)]
   else [])

end Planned

/-! ### Score records (app.py lines 552-663) -/

/-- Diagnostic `raw` bag of a score record (app.py lines 591-651).  Only the
entries consumed by `generate_narrative` or by a claim are modelled; the
remaining entries are rounded echoes of the inputs and of the volatility
breakdowns, used for display only. -/
structure RawDiag where
  delivery_framework : String
  sched_var_pct : ℚ
  slip_days : ℤ
  cpi : Option ℚ
  spi : Option ℚ
  risks_open : ℚ
  risks_high : ℚ
  milestones_planned : Option ℚ
  milestones_hit : Option ℚ
  slip_history : List ℚ
  throughput_last_4w : Option ℚ
  throughput_avg_4w : Option ℚ
  avg_cycle_time : Option ℚ
  wip_current : Option ℚ
  wip_limit : Option ℚ

/-- One output row of `compute_scores` (app.py lines 653-663).  The source
keeps `contributions` and `max_contributions` as two dicts over identical
keys built in the same order; they are fused here into one association list
`(label, contribution, max_contribution)`. -/
structure ScoreRecord where
  project_name : String
  health_score : ℚ
  confidence_score : ℚ
  trend_delta : ℚ
  contributions : List (String × ℚ × ℚ)
  raw : RawDiag

/-- Scoring of a single snapshot row (the body of the per-row loop of
`compute_scores`, app.py lines 317-663), given the rolling forecast-slip and
throughput histories and the previous stored health score.  Returns the
produced record together with both updated histories.

On a planned-framework row whose planned or forecast end date is `NaT`
(modelled `none`), the source computes `slip_days = (NaT diff).days = nan`
(line 416) and later crashes in `int(slip_days)` while assembling the `raw`
dict (line 598); this surfaces here as an `Except.error`. -/
noncomputable def scoreRow (T : Thresholds) (slipHist tpHist : List ℚ)
    (prevHealth : Option ℚ) (r : Row) :
    Except String (ScoreRecord × List ℚ × List ℚ) :=
  if isKanban r then
    let tpHist2 := tpHistAfter tpHist r
    let cs := Kanban.contribs T tpHist r
    let health := (cs.map (fun e => e.2.1)).sum
    let churn_penalty : ℚ := r.requirements_changed_last_4w * 1
    let backlog_penalty : ℚ := max 0 (net_backlog r) * 0.5
    let tp_cov_penalty : ℝ := throughput_cov_penalty (lastN 4 tpHist2)
    let slip_penalty : ℚ :=
      if hasKanbanTarget r then max 0 ((kanbanSlipDays r : ℚ)) * 0.15 else 0
    let confidence : ℝ :=
      clampR (100 - tp_cov_penalty - (churn_penalty : ℝ) - (backlog_penalty : ℝ)
        - (slip_penalty : ℝ)) 0 100
    let prev := prevHealth.getD health
    Except.ok
      ({ project_name := r.project_name
         health_score := round1 health
         confidence_score := roundR1 confidence
         trend_delta := round1 (health - prev)
         contributions := cs
         raw :=
           { delivery_framework := r.delivery_framework
             sched_var_pct := round1 (schedVarOf r * 100)
             slip_days := kanbanSlipDays r
             cpi := if hasEvm r then some (round3 (cpiVal r)) else none
             spi := if hasEvm r && !isKanban r then some (round3 (spiVal r)) else none
             risks_open := r.risks_open.getD 0
             risks_high := r.risks_high.getD 0
             milestones_planned := if hasMs r then r.milestones_planned_to_date else none
             milestones_hit := if hasMs r then some r.milestones_hit else none
             slip_history := []
             throughput_last_4w :=
               if hasKanbanCols r then some (r.throughput_last_4w.getD 0) else none
             throughput_avg_4w :=
               if hasKanbanCols r then some (round1 (tpAvg tpHist r)) else none
             avg_cycle_time := if hasKanbanCols r then some (avgCtVal r) else none
             wip_current := if hasKanbanCols r then some (wipCurVal r) else none
             wip_limit := if hasKanbanCols r then some (wipLimVal r) else none } },
       slipHist, tpHist2)
  else
    match r.planned_end_date, r.forecast_end_date with
    | some pe, some fe =>
      let slip : ℤ := fe - pe
      let slipHist2 := slipHist ++ [(slip : ℚ)]
      let cs := Planned.contribs T r slip
      let health := (cs.map (fun e => e.2.1)).sum
      let churn_penalty : ℚ := r.requirements_changed_last_4w * 1
      let backlog_penalty : ℚ := max 0 (net_backlog r) * 0.5
      let cov_penalty : ℝ := directional_cov_penalty (lastN 4 slipHist2)
      let slip_penalty : ℚ := max 0 ((slip : ℚ)) * 0.25
      let confidence : ℝ :=
        clampR (100 - cov_penalty - (churn_penalty : ℝ) - (backlog_penalty : ℝ)
          - (slip_penalty : ℝ)) 0 100
      let prev := prevHealth.getD health
      Except.ok
        ({ project_name := r.project_name
           health_score := round1 health
           confidence_score := roundR1 confidence
           trend_delta := round1 (health - prev)
           contributions := cs
           raw :=
             { delivery_framework := r.delivery_framework
               sched_var_pct := round1 (schedVarOf r * 100)
               slip_days := slip
               cpi := if hasEvm r then some (round3 (cpiVal r)) else none
               spi := if hasEvm r && !isKanban r then some (round3 (spiVal r)) else none
               risks_open := r.risks_open.getD 0
               risks_high := r.risks_high.getD 0
               milestones_planned := if hasMs r then r.milestones_planned_to_date else none
               milestones_hit := if hasMs r then some r.milestones_hit else none
               slip_history := lastN 4 slipHist2
               throughput_last_4w := none
               throughput_avg_4w := none
               avg_cycle_time := none
               wip_current := none
               wip_limit := none } },
         slipHist2, tpHist)
    | _, _ => Except.error "ValueError: cannot convert float NaN to integer"

/-- Folding `scoreRow` over one project's chronologically ordered rows,
threading both rolling histories and the previous stored health score
(app.py lines 313-318, 587-589 and 653-665). -/
noncomputable def scoreRows (T : Thresholds) :
    List ℚ → List ℚ → Option ℚ → List Row → Except String (List ScoreRecord)
  | _, _, _, [] => Except.ok []
  | sh, th, pv, r :: rest =>
    match scoreRow T sh th pv r with
    | Except.error e => Except.error e
    | Except.ok (rec, sh2, th2) =>
      match scoreRows T sh2 th2 (some rec.health_score) rest with
      | Except.error e => Except.error e
      | Except.ok tail => Except.ok (rec :: tail)

/-- compute_scores for one project group (app.py lines 300-667): the source
iterates this per `project_id` with fresh empty histories. -/
noncomputable def compute_scores (T : Thresholds) (rows : List Row) :
    Except String (List ScoreRecord) :=
  scoreRows T [] [] none rows

/-! ### Observation helpers used by the claims -/

/-- Record produced for a single row, if scoring does not raise. -/
noncomputable def scoreRowRec (T : Thresholds) (sh th : List ℚ) (pv : Option ℚ)
    (r : Row) : Option ScoreRecord :=
  (scoreRow T sh th pv r).toOption.map (fun x => x.1)

/-- Stored health score of a single scored row. -/
noncomputable def healthOfRow (T : Thresholds) (sh th : List ℚ) (pv : Option ℚ)
    (r : Row) : Option ℚ :=
  (scoreRowRec T sh th pv r).map (fun rec => rec.health_score)

/-- Stored confidence score of a single scored row. -/
noncomputable def confOfRow (T : Thresholds) (sh th : List ℚ) (pv : Option ℚ)
    (r : Row) : Option ℚ :=
  (scoreRowRec T sh th pv r).map (fun rec => rec.confidence_score)

/-- Sum of the max_contributions of a single scored row. -/
noncomputable def maxContribSumOfRow (T : Thresholds) (sh th : List ℚ)
    (pv : Option ℚ) (r : Row) : Option ℚ :=
  (scoreRowRec T sh th pv r).map (fun rec => (rec.contributions.map (fun e => e.2.2)).sum)

/-- Contribution labels of a single scored row. -/
noncomputable def contribLabelsOfRow (T : Thresholds) (sh th : List ℚ)
    (pv : Option ℚ) (r : Row) : Option (List String) :=
  (scoreRowRec T sh th pv r).map (fun rec => rec.contributions.map (fun e => e.1))

/-- Throughput history after scoring a single row. -/
noncomputable def tpHistOfRow (T : Thresholds) (sh th : List ℚ) (pv : Option ℚ)
    (r : Row) : Option (List ℚ) :=
  (scoreRow T sh th pv r).toOption.map (fun x => x.2.2)

/-- Diagnostic `raw["cpi"]` of a single scored row. -/
noncomputable def rawCpiOfRow (T : Thresholds) (sh th : List ℚ) (pv : Option ℚ)
    (r : Row) : Option (Option ℚ) :=
  (scoreRowRec T sh th pv r).map (fun rec => rec.raw.cpi)

/-- Stored health scores of a project series. -/
noncomputable def projHealths (T : Thresholds) (rows : List Row) : Option (List ℚ) :=
  (compute_scores T rows).toOption.map (List.map (fun rec => rec.health_score))

/-- Stored trend deltas of a project series. -/
noncomputable def projTrends (T : Thresholds) (rows : List Row) : Option (List ℚ) :=
  (compute_scores T rows).toOption.map (List.map (fun rec => rec.trend_delta))

/-! ### Normalized metrics stay in the unit interval -/

lemma proximityOf_mem (r : Row) : 0 ≤ proximityOf r ∧ proximityOf r ≤ 1 := by
  rw [proximityOf]; split
  · norm_num
  · exact clamp01_mem _

lemma m_backlog_mem (T : Thresholds) (r : Row) :
    0 ≤ m_backlog T r ∧ m_backlog T r ≤ 1 := clamp01_mem _

lemma m_req_churn_mem (T : Thresholds) (r : Row) :
    0 ≤ m_req_churn T r ∧ m_req_churn T r ≤ 1 := clamp01_mem _

lemma m_defect_escape_mem (T : Thresholds) (r : Row) :
    0 ≤ m_defect_escape T r ∧ m_defect_escape T r ≤ 1 := clamp01_mem _

lemma m_critical_mem (T : Thresholds) (r : Row) :
    0 ≤ m_critical T r ∧ m_critical T r ≤ 1 := clamp01_mem _

lemma m_churn_mem (r : Row) : 0 ≤ m_churn r ∧ m_churn r ≤ 1 := clamp01_mem _

lemma m_blocked_mem (T : Thresholds) (r : Row) :
    0 ≤ m_blocked T r ∧ m_blocked T r ≤ 1 := clamp01_mem _

lemma m_deps_mem (T : Thresholds) (r : Row) :
    0 ≤ m_deps T r ∧ m_deps T r ≤ 1 := clamp01_mem _

lemma m_cpi_mem (T : Thresholds) (r : Row) : 0 ≤ m_cpi T r ∧ m_cpi T r ≤ 1 := by
  rw [m_cpi]; split
  · exact clamp01_mem _
  · norm_num

lemma m_spi_mem (T : Thresholds) (r : Row) : 0 ≤ m_spi T r ∧ m_spi T r ≤ 1 := by
  rw [m_spi]; split
  · exact clamp01_mem _
  · norm_num

lemma m_milestone_mem (T : Thresholds) (r : Row) :
    0 ≤ m_milestone T r ∧ m_milestone T r ≤ 1 := by
  rw [m_milestone]; split
  · exact clamp01_mem _
  · norm_num

lemma m_throughput_mem (T : Thresholds) (tpHist : List ℚ) (r : Row) :
    0 ≤ m_throughput T tpHist r ∧ m_throughput T tpHist r ≤ 1 := by
  rw [m_throughput]; split
  · exact clamp01_mem _
  · norm_num

lemma m_cycle_time_mem (T : Thresholds) (r : Row) :
    0 ≤ m_cycle_time T r ∧ m_cycle_time T r ≤ 1 := by
  rw [m_cycle_time]; split
  · exact clamp01_mem _
  · norm_num

lemma m_wip_adherence_mem (T : Thresholds) (r : Row) :
    0 ≤ m_wip_adherence T r ∧ m_wip_adherence T r ≤ 1 := by
  rw [m_wip_adherence]; split
  · exact clamp01_mem _
  · norm_num

lemma m_aging_wip_mem (T : Thresholds) (r : Row) :
    0 ≤ m_aging_wip T r ∧ m_aging_wip T r ≤ 1 := by
  rw [m_aging_wip]; split
  · exact clamp01_mem _
  · norm_num

lemma m_sched_var_mem (T : Thresholds) (r : Row) :
    0 ≤ m_sched_var T r ∧ m_sched_var T r ≤ 1 := by
  rw [m_sched_var]; split
  · norm_num
  · exact clamp01_mem _

lemma m_unplanned_mem (T : Thresholds) (r : Row) :
    0 ≤ m_unplanned T r ∧ m_unplanned T r ≤ 1 := by
  rw [m_unplanned]; split
  · norm_num
  · exact clamp01_mem _

lemma m_forecast_slip_of_mem (T : Thresholds) (slip : ℤ) :
    0 ≤ m_forecast_slip_of T slip ∧ m_forecast_slip_of T slip ≤ 1 := clamp01_mem _

/-! ### Weight facts -/

lemma ite_weight_nonneg (c : Prop) [Decidable c] (w : ℚ) (hw : 0 ≤ w) :
    0 ≤ if c then w else 0 := by split <;> simp [hw]

lemma Planned.w_sched_var_nonneg (r : Row) : 0 ≤ w_sched_var r := by
  have := (proximityOf_mem r).1
  rw [w_sched_var]; nlinarith

lemma Planned.w_forecast_slip_nonneg (r : Row) : 0 ≤ w_forecast_slip r := by
  have := (proximityOf_mem r).1
  rw [w_forecast_slip]; nlinarith

lemma Planned.w_defect_escape_nonneg (r : Row) : 0 ≤ w_defect_escape r := by
  have := (proximityOf_mem r).1
  rw [w_defect_escape]; nlinarith

lemma Planned.w_critical_nonneg (r : Row) : 0 ≤ w_critical r := by
  have := (proximityOf_mem r).1
  rw [w_critical]; nlinarith

lemma Planned.w_unplanned_nonneg (r : Row) : 0 ≤ w_unplanned r := by
  have := (proximityOf_mem r).2
  rw [w_unplanned]; nlinarith

lemma Planned.w_deps_nonneg (r : Row) : 0 ≤ w_deps r := by
  have := (proximityOf_mem r).2
  rw [w_deps]; nlinarith

lemma Planned.w_cpi_nonneg (r : Row) : 0 ≤ w_cpi r :=
  ite_weight_nonneg _ _ (by norm_num)

lemma Planned.w_spi_nonneg (r : Row) : 0 ≤ w_spi r :=
  ite_weight_nonneg _ _ (by norm_num)

lemma Planned.w_milestone_nonneg (r : Row) : 0 ≤ w_milestone r :=
  ite_weight_nonneg _ _ (by norm_num)

/-- The planned active weight total is at least 0.71 (the proximity-scaling
terms only add weight: `+0.15 * proximity` on balance). -/
lemma Planned.total_w_ge (r : Row) : 0.71 ≤ total_w r := by
  have hp := proximityOf_mem r
  have h1 := w_cpi_nonneg r
  have h2 := w_spi_nonneg r
  have h3 := w_milestone_nonneg r
  rw [total_w, w_sched_var, w_forecast_slip, w_backlog, w_req_churn,
    w_defect_escape, w_critical, w_churn, w_blocked, w_unplanned, w_deps]
  nlinarith [hp.1, hp.2]

lemma Planned.total_w_pos (r : Row) : 0 < total_w r :=
  lt_of_lt_of_le (by norm_num) (total_w_ge r)

lemma Kanban.w_throughput_nonneg (r : Row) : 0 ≤ w_throughput r :=
  ite_weight_nonneg _ _ (by norm_num)

lemma Kanban.w_cycle_time_nonneg (r : Row) : 0 ≤ w_cycle_time r :=
  ite_weight_nonneg _ _ (by norm_num)

lemma Kanban.w_wip_adherence_nonneg (r : Row) : 0 ≤ w_wip_adherence r :=
  ite_weight_nonneg _ _ (by norm_num)

lemma Kanban.w_aging_wip_nonneg (r : Row) : 0 ≤ w_aging_wip r :=
  ite_weight_nonneg _ _ (by norm_num)

lemma Kanban.w_cpi_nonneg' (r : Row) : 0 ≤ w_cpi r :=
  ite_weight_nonneg _ _ (by norm_num)

lemma Kanban.w_milestone_nonneg' (r : Row) : 0 ≤ w_milestone r :=
  ite_weight_nonneg _ _ (by norm_num)

lemma Kanban.w_forecast_slip_nonneg' (r : Row) : 0 ≤ w_forecast_slip r :=
  ite_weight_nonneg _ _ (by norm_num)

/-- The kanban active weight total is at least the 0.54 of the six shared
fixed weights. -/
lemma Kanban.total_w_ge' (r : Row) : 0.54 ≤ total_w r := by
  have h1 := w_throughput_nonneg r
  have h2 := w_cycle_time_nonneg r
  have h3 := w_wip_adherence_nonneg r
  have h4 := w_aging_wip_nonneg r
  have h5 := w_cpi_nonneg' r
  have h6 := w_milestone_nonneg' r
  have h7 := w_forecast_slip_nonneg' r
  rw [total_w, w_backlog, w_req_churn, w_defect_escape, w_critical, w_churn, w_blocked]
  linarith

lemma Kanban.total_w_pos' (r : Row) : 0 < total_w r :=
  lt_of_lt_of_le (by norm_num) (total_w_ge' r)

/-! ### The max_contributions of every project-week sum to exactly 100 -/

lemma Planned.max_contribs_sum (T : Thresholds) (r : Row) (slip : ℤ) :
    ((contribs T r slip).map (fun e => e.2.2)).sum = 100 := by
  have htne : total_w r ≠ 0 := ne_of_gt (total_w_pos r)
  have hstep : ((contribs T r slip).map (fun e => e.2.2)).sum =
      (w_sched_var r + w_forecast_slip r + w_backlog + w_req_churn +
        w_defect_escape r + w_critical r + w_churn + w_blocked +
        w_unplanned r + w_deps r + w_cpi r + w_spi r + w_milestone r) / total_w r * 100 := by
    cases h1 : hasEvm r <;> cases h2 : hasMs r <;>
      simp [contribs, wn, w_cpi, w_spi, w_milestone, h1, h2, List.sum_append] <;>
      ring
  rw [hstep, show w_sched_var r + w_forecast_slip r + w_backlog + w_req_churn +
    w_defect_escape r + w_critical r + w_churn + w_blocked + w_unplanned r +
    w_deps r + w_cpi r + w_spi r + w_milestone r = total_w r from rfl,
    div_self htne, one_mul]

lemma Kanban.max_contribs_sum' (T : Thresholds) (tpHist : List ℚ) (r : Row) :
    ((contribs T tpHist r).map (fun e => e.2.2)).sum = 100 := by
  have htne : total_w r ≠ 0 := ne_of_gt (total_w_pos' r)
  have hstep : ((contribs T tpHist r).map (fun e => e.2.2)).sum =
      (w_throughput r + w_cycle_time r + w_wip_adherence r + w_aging_wip r +
        w_backlog + w_req_churn + w_defect_escape + w_critical +
        w_churn + w_blocked + w_cpi r + w_milestone r + w_forecast_slip r) / total_w r * 100 := by
    cases h1 : hasKanbanCols r <;> cases h2 : hasEvm r <;> cases h3 : hasMs r <;>
      cases h4 : hasKanbanTarget r <;>
      simp [contribs, wn, w_throughput, w_cycle_time, w_wip_adherence, w_aging_wip,
        w_cpi, w_milestone, w_forecast_slip, h1, h2, h3, h4, List.sum_append] <;>
      ring
  rw [hstep, show w_throughput r + w_cycle_time r + w_wip_adherence r + w_aging_wip r +
    w_backlog + w_req_churn + w_defect_escape + w_critical + w_churn + w_blocked +
    w_cpi r + w_milestone r + w_forecast_slip r = total_w r from rfl,
    div_self htne, one_mul]

/-! ### Every contribution lies between 0 and its max_contribution -/

lemma entry_bound (w t m : ℚ) (hw : 0 ≤ w) (ht : 0 < t) (hm : 0 ≤ m ∧ m ≤ 1) :
    0 ≤ w / t * m * 100 ∧ w / t * m * 100 ≤ w / t * 100 := by
  have h0 : 0 ≤ w / t := div_nonneg hw ht.le
  constructor
  · have := mul_nonneg (mul_nonneg h0 hm.1) (by norm_num : (0:ℚ) ≤ 100)
    linarith
  · nlinarith [hm.2, hm.1]

lemma Planned.contribs_bounds (T : Thresholds) (r : Row) (slip : ℤ) :
    ∀ e ∈ contribs T r slip, 0 ≤ e.2.1 ∧ e.2.1 ≤ e.2.2 := by
  intro e he
  have ht := total_w_pos r
  simp only [contribs, List.mem_append] at he
  rcases he with (he | he) | he
  · simp only [List.mem_cons, List.not_mem_nil, or_false] at he
    rcases he with rfl | rfl | rfl | rfl | rfl | rfl | rfl | rfl | rfl | rfl
    · exact entry_bound _ _ _ (w_sched_var_nonneg r) ht (m_sched_var_mem T r)
    · exact entry_bound _ _ _ (w_forecast_slip_nonneg r) ht (m_forecast_slip_of_mem T slip)
    · exact entry_bound _ _ _ (by norm_num [w_backlog]) ht (m_backlog_mem T r)
    · exact entry_bound _ _ _ (by norm_num [w_req_churn]) ht (m_req_churn_mem T r)
    · exact entry_bound _ _ _ (w_defect_escape_nonneg r) ht (m_defect_escape_mem T r)
    · exact entry_bound _ _ _ (w_critical_nonneg r) ht (m_critical_mem T r)
    · exact entry_bound _ _ _ (by norm_num [w_churn]) ht (m_churn_mem r)
    · exact entry_bound _ _ _ (by norm_num [w_blocked]) ht (m_blocked_mem T r)
    · exact entry_bound _ _ _ (w_unplanned_nonneg r) ht (m_unplanned_mem T r)
    · exact entry_bound _ _ _ (w_deps_nonneg r) ht (m_deps_mem T r)
  · split at he
    · simp only [List.mem_cons, List.not_mem_nil, or_false] at he
      rcases he with rfl | rfl
      · exact entry_bound _ _ _ (w_cpi_nonneg r) ht (m_cpi_mem T r)
      · exact entry_bound _ _ _ (w_spi_nonneg r) ht (m_spi_mem T r)
    · exact absurd he (List.not_mem_nil e)
  · split at he
    · simp only [List.mem_cons, List.not_mem_nil, or_false] at he
      rcases he with rfl
      exact entry_bound _ _ _ (w_milestone_nonneg r) ht (m_milestone_mem T r)
    · exact absurd he (List.not_mem_nil e)

lemma Kanban.contribs_bounds' (T : Thresholds) (tpHist : List ℚ) (r : Row) :
    ∀ e ∈ contribs T tpHist r, 0 ≤ e.2.1 ∧ e.2.1 ≤ e.2.2 := by
  intro e he
  have ht := total_w_pos' r
  simp only [contribs, List.mem_append] at he
  rcases he with (((he | he) | he) | he) | he
  · split at he
    · simp only [List.mem_cons, List.not_mem_nil, or_false] at he
      rcases he with rfl | rfl | rfl | rfl
      · exact entry_bound _ _ _ (w_throughput_nonneg r) ht (m_throughput_mem T tpHist r)
      · exact entry_bound _ _ _ (w_cycle_time_nonneg r) ht (m_cycle_time_mem T r)
      · exact entry_bound _ _ _ (w_wip_adherence_nonneg r) ht (m_wip_adherence_mem T r)
      · exact entry_bound _ _ _ (w_aging_wip_nonneg r) ht (m_aging_wip_mem T r)
    · exact absurd he (List.not_mem_nil e)
  · simp only [List.mem_cons, List.not_mem_nil, or_false] at he
    rcases he with rfl | rfl | rfl | rfl | rfl | rfl
    · exact entry_bound _ _ _ (by norm_num [w_backlog]) ht (m_backlog_mem T r)
    · exact entry_bound _ _ _ (by norm_num [w_req_churn]) ht (m_req_churn_mem T r)
    · exact entry_bound _ _ _ (by norm_num [w_defect_escape]) ht (m_defect_escape_mem T r)
    · exact entry_bound _ _ _ (by norm_num [w_critical]) ht (m_critical_mem T r)
    · exact entry_bound _ _ _ (by norm_num [w_churn]) ht (m_churn_mem r)
    · exact entry_bound _ _ _ (by norm_num [w_blocked]) ht (m_blocked_mem T r)
  · split at he
    · simp only [List.mem_cons, List.not_mem_nil, or_false] at he
      rcases he with rfl
      exact entry_bound _ _ _ (w_cpi_nonneg' r) ht (m_cpi_mem T r)
    · exact absurd he (List.not_mem_nil e)
  · split at he
    · simp only [List.mem_cons, List.not_mem_nil, or_false] at he
      rcases he with rfl
      exact entry_bound _ _ _ (w_milestone_nonneg' r) ht (m_milestone_mem T r)
    · exact absurd he (List.not_mem_nil e)
  · split at he
    · simp only [List.mem_cons, List.not_mem_nil, or_false] at he
      rcases he with rfl
      exact entry_bound _ _ _ (w_forecast_slip_nonneg' r) ht (m_forecast_slip_of_mem T _)
    · exact absurd he (List.not_mem_nil e)

/-! ### Health sums are bounded by the max sums -/

lemma health_sum_bounds (l : List (String × ℚ × ℚ))
    (hb : ∀ e ∈ l, 0 ≤ e.2.1 ∧ e.2.1 ≤ e.2.2)
    (hmax : (l.map (fun e => e.2.2)).sum = 100) :
    0 ≤ (l.map (fun e => e.2.1)).sum ∧ (l.map (fun e => e.2.1)).sum ≤ 100 := by
  constructor
  · apply List.sum_nonneg
    intro x hx
    simp only [List.mem_map] at hx
    obtain ⟨e, he, rfl⟩ := hx
    exact (hb e he).1
  · calc (l.map (fun e => e.2.1)).sum ≤ (l.map (fun e => e.2.2)).sum :=
          List.sum_le_sum (fun e he => (hb e he).2)
      _ = 100 := hmax

/-! ### Rounding preserves the score bounds -/

lemma round1_mem_0_100 (x : ℚ) (h0 : 0 ≤ x) (h1 : x ≤ 100) :
    0 ≤ round1 x ∧ round1 x ≤ 100 := by
  rw [round1, round_eq]
  have hlo : (0 : ℤ) ≤ ⌊10 * x + 1 / 2⌋ := Int.le_floor.mpr (by push_cast; linarith)
  have hhi : ⌊10 * x + 1 / 2⌋ < 1001 := Int.floor_lt.mpr (by push_cast; linarith)
  have hhi2 : ⌊10 * x + 1 / 2⌋ ≤ 1000 := Int.lt_add_one_iff.mp hhi
  constructor
  · apply div_nonneg _ (by norm_num)
    exact_mod_cast hlo
  · rw [div_le_iff₀ (by norm_num : (0:ℚ) < 10)]
    calc ((⌊10 * x + 1 / 2⌋ : ℤ) : ℚ) ≤ 1000 := by exact_mod_cast hhi2
      _ = 100 * 10 := by norm_num

lemma roundR1_mem_0_100 (x : ℝ) (h0 : 0 ≤ x) (h1 : x ≤ 100) :
    0 ≤ roundR1 x ∧ roundR1 x ≤ 100 := by
  rw [roundR1, round_eq]
  have hlo : (0 : ℤ) ≤ ⌊10 * x + 1 / 2⌋ := Int.le_floor.mpr (by push_cast; linarith)
  have hhi : ⌊10 * x + 1 / 2⌋ < 1001 := Int.floor_lt.mpr (by push_cast; linarith)
  have hhi2 : ⌊10 * x + 1 / 2⌋ ≤ 1000 := Int.lt_add_one_iff.mp hhi
  constructor
  · apply div_nonneg _ (by norm_num)
    exact_mod_cast hlo
  · rw [div_le_iff₀ (by norm_num : (0:ℚ) < 10)]
    calc ((⌊10 * x + 1 / 2⌋ : ℤ) : ℚ) ≤ 1000 := by exact_mod_cast hhi2
      _ = 100 * 10 := by norm_num

/-! ### Claims C1 and C2 -/

set_option maxHeartbeats 1600000 in
lemma scoreRowRec_bounds (T : Thresholds) (sh th : List ℚ) (pv : Option ℚ)
    (r : Row) (rec : ScoreRecord) (hrec : scoreRowRec T sh th pv r = some rec) :
    (0 ≤ rec.health_score ∧ rec.health_score ≤ 100) ∧
    (0 ≤ rec.confidence_score ∧ rec.confidence_score ≤ 100) := by
  rw [scoreRowRec, scoreRow] at hrec
  split at hrec
  · simp only [Except.toOption, Option.map_some', Option.some.injEq] at hrec
    subst hrec
    have hh := health_sum_bounds _ (Kanban.contribs_bounds' T th r)
      (Kanban.max_contribs_sum' T th r)
    refine ⟨round1_mem_0_100 _ hh.1 hh.2, roundR1_mem_0_100 _ ?_ ?_⟩
    · exact le_clampR _ 0 100
    · exact clampR_le _ 0 100 (by norm_num)
  · split at hrec
    · rename_i x1 x2 pe fe h1 h2
      simp only [Except.toOption, Option.map_some', Option.some.injEq] at hrec
      subst hrec
      have hh := health_sum_bounds _ (Planned.contribs_bounds T r (fe - pe))
        (Planned.max_contribs_sum T r (fe - pe))
      refine ⟨round1_mem_0_100 _ hh.1 hh.2, roundR1_mem_0_100 _ ?_ ?_⟩
      · exact le_clampR _ 0 100
      · exact clampR_le _ 0 100 (by norm_num)
    · simp [Except.toOption] at hrec

/-- C1: every score record produced by `compute_scores` has its health score
and its confidence score inside `[0, 100]` (health is a sum of terms bounded
by per-metric maxima summing to 100; confidence is explicitly clamped; the
stored one-decimal roundings preserve both bounds). -/
theorem claim_C1_bounded_scores (T : Thresholds) (sh th : List ℚ) (pv : Option ℚ)
    (r : Row) :
    0 ≤ (healthOfRow T sh th pv r).getD 0 ∧ (healthOfRow T sh th pv r).getD 0 ≤ 100 ∧
    0 ≤ (confOfRow T sh th pv r).getD 0 ∧ (confOfRow T sh th pv r).getD 0 ≤ 100 := by
  rcases hrec : scoreRowRec T sh th pv r with _ | rec
  · simp [healthOfRow, confOfRow, hrec]
  · obtain ⟨⟨hh0, hh1⟩, hc0, hc1⟩ := scoreRowRec_bounds T sh th pv r rec hrec
    simp only [healthOfRow, confOfRow, hrec, Option.map_some', Option.getD_some]
    exact ⟨hh0, hh1, hc0, hc1⟩

/-- C2: for every scored project-week — kanban or planned, whatever subset of
the optional metrics (EVM, milestones, kanban columns, kanban target date) is
present — the max_contributions sum to exactly 100. -/
theorem claim_C2_weight_renormalization (T : Thresholds) (sh th : List ℚ)
    (pv : Option ℚ) (r : Row)
    (h : (isKanban r || (r.planned_end_date.isSome && r.forecast_end_date.isSome)) = true) :
    maxContribSumOfRow T sh th pv r = some 100 := by
  rw [maxContribSumOfRow, scoreRowRec, scoreRow]
  by_cases hk : isKanban r = true
  · rw [if_pos hk]
    simp [Except.toOption, Kanban.max_contribs_sum']
  · rw [if_neg hk]
    have hor : isKanban r = true ∨
        (r.planned_end_date.isSome ∧ r.forecast_end_date.isSome) := by simpa using h
    have hb : r.planned_end_date.isSome ∧ r.forecast_end_date.isSome := by
      rcases hor with h1 | h1
      · exact absurd h1 hk
      · exact h1
    obtain ⟨hp, hf⟩ := hb
    obtain ⟨pe, hpe⟩ := Option.isSome_iff_exists.mp hp
    obtain ⟨fe, hfe⟩ := Option.isSome_iff_exists.mp hf
    rw [hpe, hfe]
    simp [Except.toOption, Planned.max_contribs_sum]

/-- Sample kanban row: all optional kanban columns present, no EVM or
milestone data, no target date. -/
def kanbanRowW : Row where
  project_name := "Flow"
  delivery_framework := "kanban"
  planned_end_date := none
  forecast_end_date := none
  actual_percent_complete := 0.5
  planned_percent_complete := 0.5
  backlog_items_added_last_4w := 0
  backlog_items_closed_last_4w := 0
  requirements_changed_last_4w := 0
  defect_escape_rate_last_4w := 0
  defects_open_critical := 0
  team_size := 5
  team_churn_last_4w := 0
  blocked_days_last_2w := 0
  unplanned_work_ratio_last_4w := 0
  dependency_count := 0
  planned_cost_to_date := none
  actual_cost_to_date := none
  milestones_planned_to_date := none
  milestones_hit := 0
  risks_open := none
  risks_high := none
  throughput_last_4w := some 10
  avg_cycle_time_last_4w := some 5
  wip_current := some 3
  wip_limit := some 5
  aging_wip_items := some 1

/-- C2 witness: a concrete kanban project-week whose max_contributions sum to
exactly 100. -/
theorem claim_C2_witness :
    maxContribSumOfRow DEFAULT_THRESHOLDS [] [] none kanbanRowW = some 100 :=
  claim_C2_weight_renormalization DEFAULT_THRESHOLDS [] [] none kanbanRowW (by decide)

/-! ### Claim C9: trend deltas -/

lemma round1_zero : round1 0 = 0 := by
  rw [round1]
  norm_num

/-- Rounding to one decimal commutes with subtracting a one-decimal grid
point: this is why the stored `trend_delta = round(health - prev_rounded, 1)`
equals the difference of the two stored (rounded) health scores. -/
lemma round1_sub_grid (x : ℚ) (k : ℤ) :
    round1 (x - (k : ℚ) / 10) = round1 x - (k : ℚ) / 10 := by
  rw [round1, round1]
  have h : 10 * (x - (k : ℚ) / 10) = 10 * x - (k : ℚ) := by ring
  rw [h, round_sub_int]
  push_cast
  ring

/-- Stored health and trend facts of one scored row: the stored health lies
on the one-decimal grid; the first week of a series (no previous health) gets
trend 0; any later week gets trend = stored health minus previous stored
health. -/
lemma scoreRow_trend (T : Thresholds) (sh th : List ℚ) (pv : Option ℚ) (r : Row)
    (rec : ScoreRecord) (s1 s2 : List ℚ)
    (h : scoreRow T sh th pv r = Except.ok (rec, s1, s2)) :
    (∃ k : ℤ, rec.health_score = (k : ℚ) / 10) ∧
    (pv = none → rec.trend_delta = 0) ∧
    (∀ (p : ℚ) (k : ℤ), pv = some p → p = (k : ℚ) / 10 →
      rec.trend_delta = rec.health_score - p) := by
  rw [scoreRow] at h
  split at h
  · simp only [Except.ok.injEq, Prod.mk.injEq] at h
    obtain ⟨hr, -, -⟩ := h
    subst hr
    refine ⟨⟨_, rfl⟩, ?_, ?_⟩
    · rintro rfl
      simp only [Option.getD_none, sub_self, round1_zero]
    · rintro p k rfl hp
      subst hp
      simp only [Option.getD_some, round1_sub_grid]
  · split at h
    · simp only [Except.ok.injEq, Prod.mk.injEq] at h
      obtain ⟨hr, -, -⟩ := h
      subst hr
      refine ⟨⟨_, rfl⟩, ?_, ?_⟩
      · rintro rfl
        simp only [Option.getD_none, sub_self, round1_zero]
      · rintro p k rfl hp
        subst hp
        simp only [Option.getD_some, round1_sub_grid]
    · exact absurd h (by simp)

/-- Trend structure of a whole scored series, by induction along the fold. -/
lemma scoreRows_trend_spec (T : Thresholds) :
    ∀ (rows : List Row) (sh th : List ℚ) (pv : Option ℚ) (recs : List ScoreRecord),
      scoreRows T sh th pv rows = Except.ok recs →
      ((pv = none → ∀ r0, recs[0]? = some r0 → r0.trend_delta = 0) ∧
       (∀ (p : ℚ) (k : ℤ), pv = some p → p = (k : ℚ) / 10 →
          ∀ r0, recs[0]? = some r0 → r0.trend_delta = r0.health_score - p) ∧
       (∀ i ri rj, recs[i]? = some ri → recs[i + 1]? = some rj →
          rj.trend_delta = rj.health_score - ri.health_score)) := by
  intro rows
  induction rows with
  | nil =>
    intro sh th pv recs h
    rw [scoreRows] at h
    simp only [Except.ok.injEq] at h
    subst h
    refine ⟨?_, ?_, ?_⟩ <;> intros <;> simp_all
  | cons r rest ih =>
    intro sh th pv recs h
    rw [scoreRows] at h
    split at h
    · exact absurd h (by simp)
    · rename_i rec sh2 th2 heq
      split at h
      · exact absurd h (by simp)
      · rename_i tail htail
        simp only [Except.ok.injEq] at h
        subst h
        obtain ⟨⟨k0, hk0⟩, hfirst, hlater⟩ := scoreRow_trend T sh th pv r rec sh2 th2 heq
        have hih := ih sh2 th2 (some rec.health_score) tail htail
        refine ⟨?_, ?_, ?_⟩
        · rintro rfl r0 h0
          simp only [List.getElem?_cons_zero, Option.some.injEq] at h0
          subst h0
          exact hfirst rfl
        · rintro p k rfl hp r0 h0
          simp only [List.getElem?_cons_zero, Option.some.injEq] at h0
          subst h0
          exact hlater p k rfl hp
        · intro i ri rj hi hj
          cases i with
          | zero =>
            simp only [List.getElem?_cons_zero, Option.some.injEq] at hi
            subst hi
            simp only [List.getElem?_cons_succ] at hj
            exact hih.2.1 _ k0 rfl hk0 rj hj
          | succ n =>
            simp only [List.getElem?_cons_succ] at hi hj
            exact hih.2.2 n ri rj hi hj

lemma map_getElem? {α β : Type} (f : α → β) (l : List α) (i : ℕ) (b : β)
    (h : (l.map f)[i]? = some b) : ∃ a, l[i]? = some a ∧ f a = b := by
  rw [List.getElem?_map] at h
  exact Option.map_eq_some'.mp h

/-- C9: in every scored project series, the first record has `trend_delta` 0
and every later record has `trend_delta` equal to its own stored health score
minus the previous record's stored health score. -/
theorem claim_C9_trend_delta (T : Thresholds) (rows : List Row) (ts hs : List ℚ)
    (hts : projTrends T rows = some ts) (hhs : projHealths T rows = some hs) :
    (∀ t, ts[0]? = some t → t = 0) ∧
    (∀ i t a b, ts[i + 1]? = some t → hs[i + 1]? = some a → hs[i]? = some b →
      t = a - b) := by
  rw [projTrends] at hts
  rw [projHealths] at hhs
  rcases hcs : compute_scores T rows with e | recs
  · rw [hcs] at hts
    simp [Except.toOption] at hts
  · rw [hcs] at hts hhs
    simp only [Except.toOption, Option.map_some', Option.some.injEq] at hts hhs
    subst hts
    subst hhs
    have hspec := scoreRows_trend_spec T rows [] [] none recs hcs
    constructor
    · intro t h0
      obtain ⟨r0, hr0, rfl⟩ := map_getElem? _ recs 0 t h0
      exact hspec.1 rfl r0 hr0
    · intro i t a b ht ha hb
      obtain ⟨rj, hrj, rfl⟩ := map_getElem? _ recs (i + 1) t ht
      obtain ⟨rj2, hrj2, rfl⟩ := map_getElem? _ recs (i + 1) a ha
      obtain ⟨ri, hri, rfl⟩ := map_getElem? _ recs i b hb
      have hjj : rj2 = rj := by
        rw [hrj] at hrj2
        exact (Option.some.injEq _ _ ▸ hrj2).symm
      subst hjj
      exact hspec.2.2 i ri rj2 hri hrj

/-! ### Concrete two-week planned series with health scores 60.0 and 65.0 -/

/-- Week 1 of the example series: metric mix engineered so that the health
score is exactly 60.0 (slip, backlog, churn and blocked at their zero
thresholds, dependencies at 1.2 of 15). -/
def c9Row1 : Row where
  project_name := "Phoenix"
  delivery_framework := "planned"
  planned_end_date := some 0
  forecast_end_date := some 140
  actual_percent_complete := 0.2
  planned_percent_complete := 0.2
  backlog_items_added_last_4w := 50
  backlog_items_closed_last_4w := 0
  requirements_changed_last_4w := 15
  defect_escape_rate_last_4w := 0
  defects_open_critical := 0
  team_size := 5
  team_churn_last_4w := 0
  blocked_days_last_2w := 10
  unplanned_work_ratio_last_4w := 0
  dependency_count := 1.2
  planned_cost_to_date := none
  actual_cost_to_date := none
  milestones_planned_to_date := none
  milestones_hit := 0
  risks_open := none
  risks_high := none
  throughput_last_4w := none
  avg_cycle_time_last_4w := none
  wip_current := none
  wip_limit := none
  aging_wip_items := none

/-- Week 2 of the example series: blocked days drop to 4.75 and dependencies
to 0, lifting the health score to exactly 65.0. -/
def c9Row2 : Row where
  project_name := "Phoenix"
  delivery_framework := "planned"
  planned_end_date := some 0
  forecast_end_date := some 140
  actual_percent_complete := 0.2
  planned_percent_complete := 0.2
  backlog_items_added_last_4w := 50
  backlog_items_closed_last_4w := 0
  requirements_changed_last_4w := 15
  defect_escape_rate_last_4w := 0
  defects_open_critical := 0
  team_size := 5
  team_churn_last_4w := 0
  blocked_days_last_2w := 4.75
  unplanned_work_ratio_last_4w := 0
  dependency_count := 0
  planned_cost_to_date := none
  actual_cost_to_date := none
  milestones_planned_to_date := none
  milestones_hit := 0
  risks_open := none
  risks_high := none
  throughput_last_4w := none
  avg_cycle_time_last_4w := none
  wip_current := none
  wip_limit := none
  aging_wip_items := none

lemma planned_ne_kanban : ("planned" : String) ≠ "kanban" := by decide

lemma round1_sixty : round1 60 = 60 := by
  norm_num [round1, round_ofNat]

lemma round1_sixtyfive : round1 65 = 65 := by
  norm_num [round1, round_ofNat]

lemma round1_five : round1 5 = 5 := by
  norm_num [round1, round_ofNat]

lemma c9_eval_healths :
    projHealths DEFAULT_THRESHOLDS [c9Row1, c9Row2] = some [60, 65] := by
  norm_num [projHealths, compute_scores, scoreRows, scoreRow, Except.toOption,
    c9Row1, c9Row2, isKanban, hasEvm, hasMs, DEFAULT_THRESHOLDS,
    Planned.contribs, Planned.wn, Planned.total_w, Planned.w_sched_var,
    Planned.w_forecast_slip, Planned.w_backlog, Planned.w_req_churn,
    Planned.w_defect_escape, Planned.w_critical, Planned.w_churn,
    Planned.w_blocked, Planned.w_unplanned, Planned.w_deps, Planned.w_cpi,
    Planned.w_spi, Planned.w_milestone, proximityOf, schedVarOf, m_sched_var,
    m_forecast_slip_of, m_backlog, m_req_churn, m_defect_escape, m_critical,
    m_churn, m_blocked, m_deps, m_unplanned, m_cpi, m_spi, m_milestone,
    net_backlog, crit_ratio, critDefectDenom, teamChurnDenom, clamp,
    max_def, min_def, round1_sixty, round1_sixtyfive, round1_zero, round1_five,
    planned_ne_kanban, List.sum_append]

lemma c9_eval_trends :
    projTrends DEFAULT_THRESHOLDS [c9Row1, c9Row2] = some [0, 5] := by
  norm_num [projTrends, compute_scores, scoreRows, scoreRow, Except.toOption,
    c9Row1, c9Row2, isKanban, hasEvm, hasMs, DEFAULT_THRESHOLDS,
    Planned.contribs, Planned.wn, Planned.total_w, Planned.w_sched_var,
    Planned.w_forecast_slip, Planned.w_backlog, Planned.w_req_churn,
    Planned.w_defect_escape, Planned.w_critical, Planned.w_churn,
    Planned.w_blocked, Planned.w_unplanned, Planned.w_deps, Planned.w_cpi,
    Planned.w_spi, Planned.w_milestone, proximityOf, schedVarOf, m_sched_var,
    m_forecast_slip_of, m_backlog, m_req_churn, m_defect_escape, m_critical,
    m_churn, m_blocked, m_deps, m_unplanned, m_cpi, m_spi, m_milestone,
    net_backlog, crit_ratio, critDefectDenom, teamChurnDenom, clamp,
    max_def, min_def, round1_sixty, round1_sixtyfive, round1_zero, round1_five,
    planned_ne_kanban, List.sum_append]

/-- C9 witness: the concrete two-week planned series scoring health
`[60.0, 65.0]` has trend deltas `[0, 5.0]`, and the theorem recovers exactly
`0` for the first week and `65 - 60 = 5` for the second. -/
theorem claim_C9_witness :
    projTrends DEFAULT_THRESHOLDS [c9Row1, c9Row2] = some [0, 5] ∧
    projHealths DEFAULT_THRESHOLDS [c9Row1, c9Row2] = some [60, 65] ∧
    (0 : ℚ) = 0 ∧ (5 : ℚ) = 65 - 60 :=
  ⟨c9_eval_trends, c9_eval_healths,
   (claim_C9_trend_delta DEFAULT_THRESHOLDS [c9Row1, c9Row2] [0, 5] [60, 65]
      c9_eval_trends c9_eval_healths).1 0 rfl,
   (claim_C9_trend_delta DEFAULT_THRESHOLDS [c9Row1, c9Row2] [0, 5] [60, 65]
      c9_eval_trends c9_eval_healths).2 0 5 65 60 rfl rfl rfl⟩

/-! ### Claim C5: ratio-type normalization -/

/-- Normalization formula stated by the spec for ratio-type metrics:
`clamp((value - floor) / (1 - floor))`. -/
def specRatioNorm (v floor : ℚ) : ℚ := clamp ((v - floor) / (1 - floor))

lemma clamp_of_nonpos (x : ℚ) (hx : x ≤ 0) : clamp x = 0 :=
  max_eq_left (le_trans (min_le_right 1 x) hx)

lemma clamp_of_one_le (x : ℚ) (hx : 1 ≤ x) : clamp x = 1 := by
  unfold clamp
  rw [min_eq_left hx]
  exact max_eq_right (by norm_num)

/-- Planned row at 50 percent actual versus 55 percent planned completion
(schedule variance -0.05). -/
def c5Row : Row where
  project_name := "Atlas"
  delivery_framework := "planned"
  planned_end_date := some 0
  forecast_end_date := some 0
  actual_percent_complete := 0.5
  planned_percent_complete := 0.55
  backlog_items_added_last_4w := 0
  backlog_items_closed_last_4w := 0
  requirements_changed_last_4w := 0
  defect_escape_rate_last_4w := 0
  defects_open_critical := 0
  team_size := 5
  team_churn_last_4w := 0
  blocked_days_last_2w := 0
  unplanned_work_ratio_last_4w := 0
  dependency_count := 0
  planned_cost_to_date := none
  actual_cost_to_date := none
  milestones_planned_to_date := none
  milestones_hit := 0
  risks_open := none
  risks_high := none
  throughput_last_4w := none
  avg_cycle_time_last_4w := none
  wip_current := none
  wip_limit := none
  aging_wip_items := none

/-- Planned row with EVM and milestone data present (actual cost positive). -/
def c5eRow : Row where
  project_name := "Atlas"
  delivery_framework := "planned"
  planned_end_date := some 0
  forecast_end_date := some 0
  actual_percent_complete := 0.5
  planned_percent_complete := 0.5
  backlog_items_added_last_4w := 0
  backlog_items_closed_last_4w := 0
  requirements_changed_last_4w := 0
  defect_escape_rate_last_4w := 0
  defects_open_critical := 0
  team_size := 5
  team_churn_last_4w := 0
  blocked_days_last_2w := 0
  unplanned_work_ratio_last_4w := 0
  dependency_count := 0
  planned_cost_to_date := some 100
  actual_cost_to_date := some 80
  milestones_planned_to_date := some 4
  milestones_hit := 3
  risks_open := none
  risks_high := none
  throughput_last_4w := none
  avg_cycle_time_last_4w := none
  wip_current := none
  wip_limit := none
  aging_wip_items := none

/-- C5 counterexample: the schedule-variance metric is NOT the spec formula
`clamp((value - floor)/(1 - floor))`.  At schedule variance -0.05 with the
default lag threshold 0.20 the code gives `clamp(0.15/0.20) = 0.75`, while
the claimed formula with floor -0.20 gives `clamp(0.15/1.20) = 0.125`. -/
theorem claim_C5_counterexample :
    m_sched_var DEFAULT_THRESHOLDS c5Row ≠
      specRatioNorm (schedVarOf c5Row) (-DEFAULT_THRESHOLDS.sched_lag_max) := by
  norm_num [m_sched_var, specRatioNorm, schedVarOf, clamp, c5Row,
    DEFAULT_THRESHOLDS, isKanban, max_def, min_def, planned_ne_kanban]

/-- C5 (amended): CPI, SPI and milestone rate are normalized exactly as
`clamp((value - floor)/(1 - floor))`; schedule variance instead uses
`clamp((value + lag_max)/lag_max)`, which is 0 at its floor threshold
`-lag_max` and 1 at parity (variance 0) or above. -/
theorem claim_C5_ratio_normalization (T : Thresholds) (r : Row) :
    (hasEvm r = true → m_cpi T r = specRatioNorm (cpiVal r) T.cpi_floor) ∧
    (hasEvm r = true → m_spi T r = specRatioNorm (spiVal r) T.spi_floor) ∧
    (hasMs r = true → m_milestone T r = specRatioNorm (msRate r) T.milestone_floor) ∧
    (isKanban r = false →
      m_sched_var T r = clamp ((schedVarOf r + T.sched_lag_max) / T.sched_lag_max)) ∧
    (isKanban r = false → 0 < T.sched_lag_max → schedVarOf r ≤ -T.sched_lag_max →
      m_sched_var T r = 0) ∧
    (isKanban r = false → 0 < T.sched_lag_max → 0 ≤ schedVarOf r →
      m_sched_var T r = 1) := by
  refine ⟨fun h => ?_, fun h => ?_, fun h => ?_, fun h => ?_,
    fun h hpos hle => ?_, fun h hpos hge => ?_⟩
  · rw [m_cpi, if_pos h]; rfl
  · rw [m_spi, if_pos h]; rfl
  · rw [m_milestone, if_pos h]; rfl
  · rw [m_sched_var, h]; simp
  · rw [m_sched_var, h]
    simp only [Bool.false_eq_true, if_false]
    apply clamp_of_nonpos
    apply div_nonpos_of_nonpos_of_nonneg (by linarith) hpos.le
  · rw [m_sched_var, h]
    simp only [Bool.false_eq_true, if_false]
    apply clamp_of_one_le
    rw [le_div_iff₀ hpos]
    linarith

/-- C5 witness: at the default thresholds, concrete rows exercising each part
of the amended statement. -/
theorem claim_C5_witness :
    m_cpi DEFAULT_THRESHOLDS c5eRow =
      specRatioNorm (cpiVal c5eRow) DEFAULT_THRESHOLDS.cpi_floor ∧
    m_milestone DEFAULT_THRESHOLDS c5eRow =
      specRatioNorm (msRate c5eRow) DEFAULT_THRESHOLDS.milestone_floor ∧
    m_sched_var DEFAULT_THRESHOLDS c5Row =
      clamp ((schedVarOf c5Row + DEFAULT_THRESHOLDS.sched_lag_max) /
        DEFAULT_THRESHOLDS.sched_lag_max) ∧
    m_sched_var DEFAULT_THRESHOLDS c9Row1 = 1 :=
  ⟨(claim_C5_ratio_normalization DEFAULT_THRESHOLDS c5eRow).1
      (by norm_num [hasEvm, c5eRow]),
   (claim_C5_ratio_normalization DEFAULT_THRESHOLDS c5eRow).2.2.1
      (by norm_num [hasMs, c5eRow]),
   (claim_C5_ratio_normalization DEFAULT_THRESHOLDS c5Row).2.2.2.1 (by decide),
   (claim_C5_ratio_normalization DEFAULT_THRESHOLDS c9Row1).2.2.2.2.2 (by decide)
      (by norm_num [DEFAULT_THRESHOLDS])
      (by norm_num [schedVarOf, c9Row1, isKanban, planned_ne_kanban])⟩

/-! ### Claim C6: division guards -/

/-- Planned row whose team size is 0. -/
def c6Row : Row where
  project_name := "Zero"
  delivery_framework := "planned"
  planned_end_date := some 0
  forecast_end_date := some 0
  actual_percent_complete := 0.5
  planned_percent_complete := 0.5
  backlog_items_added_last_4w := 0
  backlog_items_closed_last_4w := 0
  requirements_changed_last_4w := 0
  defect_escape_rate_last_4w := 0
  defects_open_critical := 0
  team_size := 0
  team_churn_last_4w := 3
  blocked_days_last_2w := 0
  unplanned_work_ratio_last_4w := 0
  dependency_count := 0
  planned_cost_to_date := none
  actual_cost_to_date := none
  milestones_planned_to_date := none
  milestones_hit := 0
  risks_open := none
  risks_high := none
  throughput_last_4w := none
  avg_cycle_time_last_4w := none
  wip_current := none
  wip_limit := none
  aging_wip_items := none

/-- The claim of C6, as stated: every scoring division uses a denominator
with an explicit floor (at least 1, or at least 0.01) — team size, planned
percent complete, WIP limit, and the total active weight, including the
team-churn division by team size. -/
def divisionGuards (r : Row) : Prop :=
  1 ≤ critDefectDenom r ∧ (1 / 100 : ℚ) ≤ plannedPctSafe r ∧ 1 ≤ wipLimitSafe r ∧
    (1 / 100 : ℚ) ≤ Planned.total_w r ∧ (1 / 100 : ℚ) ≤ Kanban.total_w r ∧
    1 ≤ teamChurnDenom r

/-- C6 counterexample: the team-churn metric divides by the raw team size
(app.py line 343), with no floor: at `team_size = 0` its denominator is 0,
so not every division in the scoring path is guarded. -/
theorem claim_C6_counterexample : ¬(∀ r : Row, divisionGuards r) := by
  intro h
  have h6 := (h c6Row).2.2.2.2.2
  norm_num [teamChurnDenom, c6Row] at h6

/-- C6 (amended): the critical-defect team-size divisor, the EVM
planned-percent divisor and the WIP-limit divisor are floored (at 1, 0.01,
and 1 respectively), and the total active weight is provably at least 0.71
(planned) resp. 0.54 (kanban) even though it has no written floor; but the
team-churn division uses the raw team size and its denominator is 0 when
`team_size = 0` (Python then produces an inf/nan intermediate rather than a
guarded value). -/
theorem claim_C6_division_guards (r : Row) :
    1 ≤ critDefectDenom r ∧ (1 / 100 : ℚ) ≤ plannedPctSafe r ∧ 1 ≤ wipLimitSafe r ∧
    0.71 ≤ Planned.total_w r ∧ 0.54 ≤ Kanban.total_w r ∧
    teamChurnDenom c6Row = 0 := by
  refine ⟨le_max_left 1 _, ?_, le_max_right _ 1, Planned.total_w_ge r,
    Kanban.total_w_ge' r, by norm_num [teamChurnDenom, c6Row]⟩
  rw [plannedPctSafe]
  exact le_trans (by norm_num) (le_max_right _ _)

/-! ### Claim C7: absent optional fields and the fake throughput 0 -/

/-- Kanban row with throughput present (10 items). -/
def c7Row1 : Row where
  project_name := "Stream"
  delivery_framework := "kanban"
  planned_end_date := none
  forecast_end_date := none
  actual_percent_complete := 0.5
  planned_percent_complete := 0.5
  backlog_items_added_last_4w := 0
  backlog_items_closed_last_4w := 0
  requirements_changed_last_4w := 0
  defect_escape_rate_last_4w := 0
  defects_open_critical := 0
  team_size := 5
  team_churn_last_4w := 0
  blocked_days_last_2w := 0
  unplanned_work_ratio_last_4w := 0
  dependency_count := 0
  planned_cost_to_date := none
  actual_cost_to_date := none
  milestones_planned_to_date := none
  milestones_hit := 0
  risks_open := none
  risks_high := none
  throughput_last_4w := some 10
  avg_cycle_time_last_4w := some 5
  wip_current := some 3
  wip_limit := some 5
  aging_wip_items := some 0

/-- The same kanban project one week later, with `throughput_last_4w` absent
from the snapshot. -/
def c7Row2 : Row where
  project_name := "Stream"
  delivery_framework := "kanban"
  planned_end_date := none
  forecast_end_date := none
  actual_percent_complete := 0.5
  planned_percent_complete := 0.5
  backlog_items_added_last_4w := 0
  backlog_items_closed_last_4w := 0
  requirements_changed_last_4w := 0
  defect_escape_rate_last_4w := 0
  defects_open_critical := 0
  team_size := 5
  team_churn_last_4w := 0
  blocked_days_last_2w := 0
  unplanned_work_ratio_last_4w := 0
  dependency_count := 0
  planned_cost_to_date := none
  actual_cost_to_date := none
  milestones_planned_to_date := none
  milestones_hit := 0
  risks_open := none
  risks_high := none
  throughput_last_4w := none
  avg_cycle_time_last_4w := none
  wip_current := none
  wip_limit := none
  aging_wip_items := none

lemma npDiff_ten_zero : npDiff [10, 0] = [-10] := by
  norm_num [npDiff]

/-- The volatility penalty of the history `[10, 0]` — the second entry being
the fake 0 appended for a missing throughput column — is exactly
`8 * tanh(10/3) > 0`. -/
lemma tcp_fake_zero_eval :
    throughput_cov_penalty [10, 0] = 8 * Real.tanh (10 / 3) := by
  have ht0 : (0 : ℝ) < Real.tanh (10 / 3) := tanh_pos_of_pos (by norm_num)
  have ht1 : Real.tanh (10 / 3) < 1 := tanh_lt_one' _
  rw [throughput_cov_penalty]
  rw [if_neg (by norm_num)]
  simp only [npDiff_ten_zero]
  have hmean : listMean [-10] = -10 := by norm_num [listMean]
  rw [hmean]
  rw [if_neg (by norm_num)]
  have habs : |(-10 : ℚ)| = 10 := by norm_num
  rw [habs]
  have hmax : max (10 : ℚ) 1 = 10 := by norm_num
  rw [hmax]
  have hz : (0 : ℝ) / ((10 : ℚ) : ℝ) = 0 := by norm_num
  rw [hz]
  have hc0 : clampR 0 0 2 = 0 := clampR_eq_self 0 0 2 le_rfl (by norm_num)
  rw [hc0]
  have hb : clampR (0 / (1 / 2)) 0 1 = 0 := by
    rw [show ((0 : ℝ) / (1 / 2)) = 0 by norm_num]
    exact clampR_eq_self 0 0 1 le_rfl (by norm_num)
  rw [hb]
  have harg : (((-10 : ℚ) : ℝ) / 3) = -(10 / 3) := by push_cast; ring
  rw [harg, Real.tanh_neg]
  have hfl : clampR (- -Real.tanh (10 / 3)) 0 1 = Real.tanh (10 / 3) := by
    rw [neg_neg]
    exact clampR_eq_self _ 0 1 ht0.le ht1.le
  rw [hfl]
  have hz30 : ((0 : ℝ) * 30 * (1 - 0.4 * -Real.tanh (10 / 3))) = 0 := by ring
  rw [hz30]
  have hmax0 : ((0 : ℝ) ⊔ Real.tanh (10 / 3) * 8) = Real.tanh (10 / 3) * 8 := by
    rw [max_eq_right]
    nlinarith
  rw [hmax0]
  rw [clampR_eq_self _ 0 40 (by nlinarith) (by nlinarith)]
  ring

/-- C7 counterexample: scoring the kanban week whose `throughput_last_4w` is
absent appends a literal fake 0 to the rolling throughput history
(app.py line 406), and that 0 produces a strictly positive volatility
penalty in the week's confidence computation — the fake default does
participate in score computation. -/
theorem claim_C7_counterexample :
    tpHistOfRow DEFAULT_THRESHOLDS [] [10] none c7Row2 = some [10, 0] ∧
    0 < throughput_cov_penalty [10, 0] := by
  constructor
  · have h1 : hasKanbanCols c7Row2 = false := by decide
    have h2 : isKanban c7Row2 = true := by decide
    rw [tpHistOfRow, scoreRow, if_pos h2]
    simp [Except.toOption, tpHistAfter, h1, h2]
  · rw [tcp_fake_zero_eval]
    have := tanh_pos_of_pos (x := 10 / 3) (by norm_num)
    nlinarith

/-- C7 (amended): a kanban snapshot missing `throughput_last_4w` has all four
flow metrics excluded from its contributions (their weights are zeroed and
their labels never enter the dict), but the rolling throughput history
receives a literal 0 in place of the missing observation, which then feeds
the volatility penalty of this and later weeks. -/
theorem claim_C7_gating (T : Thresholds) (sh th : List ℚ) (pv : Option ℚ)
    (r : Row) (hk : isKanban r = true) (htp : r.throughput_last_4w = none) :
    tpHistOfRow T sh th pv r = some (th ++ [0]) ∧
    Kanban.w_throughput r = 0 ∧ Kanban.w_cycle_time r = 0 ∧
    Kanban.w_wip_adherence r = 0 ∧ Kanban.w_aging_wip r = 0 ∧
    (∃ ls, contribLabelsOfRow T sh th pv r = some ls ∧
      "Throughput Rate" ∉ ls ∧ "Cycle Time" ∉ ls ∧
      "WIP Adherence" ∉ ls ∧ "Aging WIP" ∉ ls) := by
  have hkc : hasKanbanCols r = false := by
    rw [hasKanbanCols, htp]
    simp
  refine ⟨?_, ?_, ?_, ?_, ?_, ?_⟩
  · rw [tpHistOfRow, scoreRow, if_pos hk]
    simp only [Except.toOption, Option.map_some']
    rw [tpHistAfter, hkc]
    simp [hk]
  · rw [Kanban.w_throughput, hkc]; simp
  · rw [Kanban.w_cycle_time, hkc]; simp
  · rw [Kanban.w_wip_adherence, hkc]; simp
  · rw [Kanban.w_aging_wip, hkc]; simp
  · refine ⟨(Kanban.contribs T th r).map (fun e => e.1), ?_, ?_, ?_, ?_, ?_⟩
    · rw [contribLabelsOfRow, scoreRowRec, scoreRow, if_pos hk]
      simp only [Except.toOption, Option.map_some']
    all_goals
      rw [Kanban.contribs, hkc]
      cases h2 : hasEvm r <;> cases h3 : hasMs r <;> cases h4 : hasKanbanTarget r <;>
        simp only [h2, h3, h4, Bool.false_eq_true, if_true, if_false,
          List.nil_append, List.append_nil, List.map_append, List.map_cons,
          List.map_nil] <;>
        decide

/-- C7 witness: the concrete kanban week with the missing throughput
column. -/
theorem claim_C7_witness :
    tpHistOfRow DEFAULT_THRESHOLDS [] [10] none c7Row2 = some ([10] ++ [0]) ∧
    Kanban.w_throughput c7Row2 = 0 :=
  ⟨(claim_C7_gating DEFAULT_THRESHOLDS [] [10] none c7Row2 (by decide) rfl).1,
   (claim_C7_gating DEFAULT_THRESHOLDS [] [10] none c7Row2 (by decide) rfl).2.1⟩

/-! ### Claim C8: malformed dates on the planned path -/

/-- Planned row whose `forecast_end_date` failed to parse
(`pd.to_datetime(..., errors="coerce")` produced `NaT`). -/
def c8BadRow : Row where
  project_name := "Mariner"
  delivery_framework := "planned"
  planned_end_date := some 0
  forecast_end_date := none
  actual_percent_complete := 0.5
  planned_percent_complete := 0.5
  backlog_items_added_last_4w := 0
  backlog_items_closed_last_4w := 0
  requirements_changed_last_4w := 0
  defect_escape_rate_last_4w := 0
  defects_open_critical := 0
  team_size := 5
  team_churn_last_4w := 0
  blocked_days_last_2w := 0
  unplanned_work_ratio_last_4w := 0
  dependency_count := 0
  planned_cost_to_date := none
  actual_cost_to_date := none
  milestones_planned_to_date := none
  milestones_hit := 0
  risks_open := none
  risks_high := none
  throughput_last_4w := none
  avg_cycle_time_last_4w := none
  wip_current := none
  wip_limit := none
  aging_wip_items := none

/-- C8: a planned-framework row with an unparseable forecast date does NOT
fall back to a no-data branch — the source always computes
`slip_days = (forecast - planned).days` on the planned path (app.py line
416, comment "Planned projects always compute slip"), which on a NaT date
yields NaN, and record assembly then crashes at `int(slip_days)` (line 598),
aborting the scoring of the whole table. -/
theorem claim_C8_malformed_date_crash :
    scoreRow DEFAULT_THRESHOLDS [] [] none c8BadRow =
      Except.error "ValueError: cannot convert float NaN to integer" ∧
    compute_scores DEFAULT_THRESHOLDS [c9Row1, c8BadRow] =
      Except.error "ValueError: cannot convert float NaN to integer" := by
  constructor
  · rw [scoreRow, if_neg (by decide)]
    rfl
  · rfl

/-! ### Narrative Generator (app.py lines 165-297)

String formatting of numbers is abbreviated relative to the Python
f-strings (`toString` instead of precision formatting); the branch
structure, the comparison semantics (including comparisons against a
possible None) and the gap-ranking rule are modelled faithfully. -/

/-- Python 3 comparison `value < q` where `value` may be None: comparing
None with a float raises a TypeError. -/
def pyLtOpt (o : Option ℚ) (q : ℚ) : Except String Bool :=
  match o with
  | none => Except.error "TypeError: unsupported comparison between NoneType and float"
  | some x => Except.ok (decide (x < q))

/-- Python 3 comparison `value > q` where `value` may be None. -/
def pyGtOpt (o : Option ℚ) (q : ℚ) : Except String Bool :=
  match o with
  | none => Except.error "TypeError: unsupported comparison between NoneType and float"
  | some x => Except.ok (decide (q < x))

/-- Top detractor (app.py lines 175-179): the metric with the largest
`gap = max_contribution - contribution`; Python sorts the gaps descending
with a stable sort and takes the head, which is the first metric attaining
the maximal gap in dict order. -/
def topDetractor (l : List (String × ℚ × ℚ)) : Option (String × ℚ) :=
  l.foldl
    (fun acc e =>
      match acc with
      | none => some (e.1, e.2.2 - e.2.1)
      | some (bl, bg) =>
        if e.2.2 - e.2.1 > bg then some (e.1, e.2.2 - e.2.1) else some (bl, bg))
    none

/-- generate_narrative (app.py lines 165-297), consuming a finished score
record (the summary dict of the API layer carries exactly the record's
fields).  Total for kanban records — every optional access there is
None-guarded — but on the planned branch the source reads
`cpi = raw.get("cpi", 1.0)` (line 262), and since the `"cpi"` key is always
present (holding None when there is no EVM data) the default never applies
and `cpi < 0.9` can compare None with a float. -/
def generate_narrative (summary : ScoreRecord) (trend_delta : ℚ)
    (conf_drivers : String) : Except String String :=
  let name := summary.project_name
  let health := summary.health_score
  let conf := summary.confidence_score
  let raw := summary.raw
  match topDetractor summary.contributions with
  | none => Except.error "IndexError: list index out of range"
  | some (top_detractor, top_gap_pts) =>
    let trend_str :=
      if 1 ≤ |trend_delta| then
        if 0 < trend_delta then
          " The score is improving (" ++ toString trend_delta ++ " pts week-over-week)."
        else
          " The score is declining (" ++ toString trend_delta ++ " pts week-over-week)."
      else ""
    let opener :=
      if 75 ≤ health then
        name ++ " is in good health (" ++ toString health ++ "/100)."
      else if 50 ≤ health then
        name ++ " is at moderate risk (" ++ toString health ++ "/100) and warrants attention."
      else
        name ++ " is in a critical state (" ++ toString health ++ "/100) and requires immediate intervention."
    let driver_str := " The biggest drag on health is " ++ top_detractor ++
      " (costing " ++ toString top_gap_pts ++ " pts vs its potential)."
    if raw.delivery_framework == "kanban" then
      let flow_str :=
        match raw.throughput_last_4w, raw.throughput_avg_4w with
        | some tp, some tp_avg =>
          if 0 < tp_avg then
            let tp_ratio := tp / tp_avg
            if 1 ≤ tp_ratio then
              " Throughput is healthy (" ++ toString tp ++ " items/4w)."
            else if 0.7 ≤ tp_ratio then
              " Throughput is moderate (" ++ toString tp ++ " items/4w) - monitor for trend."
            else
              " Throughput is below average (" ++ toString tp ++ " items/4w) - flow may be impaired."
          else ""
        | _, _ => ""
      let ct_str :=
        match raw.avg_cycle_time with
        | some ct =>
          if ct ≤ 7 then " Average cycle time is fast at " ++ toString ct ++ " days."
          else if ct ≤ 14 then " Average cycle time of " ++ toString ct ++ " days is acceptable."
          else " Average cycle time of " ++ toString ct ++ " days is elevated - consider reducing WIP."
        | none => ""
      let wip_str :=
        match raw.wip_current, raw.wip_limit with
        | some wip_cur, some wip_lim =>
          if 0 < wip_lim then
            let overage := (wip_cur - wip_lim) / wip_lim
            if 0.2 < overage then " WIP is significantly over limit, risking queue buildup."
            else if 0 < overage then " WIP is slightly over limit."
            else " WIP is within limit."
          else ""
        | _, _ => ""
      let evm_str :=
        match raw.cpi with
        | some c =>
          if c < 0.9 then " Cost performance is concerning (CPI=" ++ toString c ++ ")."
          else if 1.05 < c then " Cost performance is favorable (CPI=" ++ toString c ++ ")."
          else ""
        | none => ""
      let conf_str :=
        if conf < 50 then
          " Flow confidence is low (" ++ toString conf ++ "/100) - driven primarily by " ++ conf_drivers ++ "."
        else if conf < 75 then " Flow confidence is moderate (" ++ toString conf ++ "/100)."
        else ""
      Except.ok (opener ++ trend_str ++ flow_str ++ ct_str ++ wip_str ++ evm_str ++
        conf_str ++ driver_str)
    else
      let sched_str :=
        if raw.sched_var_pct < -5 then
          if 0 < raw.slip_days then
            " The project is behind schedule with a forecast slip of " ++
              toString raw.slip_days ++ " days."
          else " The project is behind schedule."
        else if 0 ≤ raw.sched_var_pct then " Schedule is on track or ahead."
        else ""
      match pyLtOpt raw.cpi 0.9 with
      | Except.error e => Except.error e
      | Except.ok cpi_low =>
        let evm_step :=
          if cpi_low then
            Except.ok " Cost performance is concerning: spending more than planned for work delivered."
          else
            match pyGtOpt raw.cpi 1.05 with
            | Except.error e => Except.error e
            | Except.ok cpi_high =>
              Except.ok (if cpi_high then " Cost performance is favorable." else "")
        match evm_step with
        | Except.error e => Except.error e
        | Except.ok evm_str =>
          let risk_str :=
            if 5 ≤ raw.risks_high then
              " There are " ++ toString raw.risks_high ++
                " high-severity risks open - escalation may be warranted."
            else if 0 < raw.risks_high then
              " " ++ toString raw.risks_high ++
                " high-severity risk(s) are open and should be monitored."
            else ""
          match pyGtOpt raw.milestones_planned 0 with
          | Except.error e => Except.error e
          | Except.ok ms_has =>
            let ms_str :=
              if ms_has then
                let hit_rate := raw.milestones_hit.getD 0 / raw.milestones_planned.getD 0
                if hit_rate < 0.7 then
                  " Only " ++ toString (raw.milestones_hit.getD 0) ++ "/" ++
                    toString (raw.milestones_planned.getD 0) ++
                    " planned milestones have been achieved."
                else ""
              else ""
            let conf_str :=
              if conf < 50 then
                " Confidence in the forecast is low (" ++ toString conf ++
                  "/100) - driven primarily by " ++ conf_drivers ++ "."
              else if conf < 75 then
                " Forecast confidence is moderate (" ++ toString conf ++ "/100)."
              else ""
            Except.ok (opener ++ trend_str ++ sched_str ++ evm_str ++ risk_str ++
              ms_str ++ conf_str ++ driver_str)

/-- Narrative of a single scored row, when scoring succeeds. -/
noncomputable def narrativeOfRow (T : Thresholds) (sh th : List ℚ) (pv : Option ℚ)
    (r : Row) (trend : ℚ) (drivers : String) : Option (Except String String) :=
  (scoreRowRec T sh th pv r).map (fun rec => generate_narrative rec trend drivers)

lemma topDetractor_foldl_some (l : List (String × ℚ × ℚ)) :
    ∀ p : String × ℚ,
      ∃ q, l.foldl
        (fun acc e =>
          match acc with
          | none => some (e.1, e.2.2 - e.2.1)
          | some (bl, bg) =>
            if e.2.2 - e.2.1 > bg then some (e.1, e.2.2 - e.2.1) else some (bl, bg))
        (some p) = some q := by
  induction l with
  | nil => intro p; exact ⟨p, rfl⟩
  | cons a t ih =>
    intro p
    simp only [List.foldl_cons]
    by_cases hgt : a.2.2 - a.2.1 > p.2
    · simpa [hgt] using ih (a.1, a.2.2 - a.2.1)
    · simpa [hgt] using ih (p.1, p.2)

lemma topDetractor_cons_isSome (x : String × ℚ × ℚ) (l : List (String × ℚ × ℚ)) :
    ∃ p, topDetractor (x :: l) = some p := by
  rw [topDetractor, List.foldl_cons]
  exact topDetractor_foldl_some l (x.1, x.2.2 - x.2.1)

lemma topDetractor_planned_isSome (T : Thresholds) (r : Row) (slip : ℤ) :
    ∃ p, topDetractor (Planned.contribs T r slip) = some p := by
  rw [Planned.contribs]
  simp only [List.cons_append]
  exact topDetractor_cons_isSome _ _

/-- C10: a planned-framework record computed without EVM data carries
`cpi = None` in its diagnostics, and `generate_narrative` on such a record
does not return a narrative string: it reaches the comparison
`cpi < 0.9` with `cpi = None` and raises a TypeError, so narrative
generation is not total over the engine's own outputs. -/
theorem claim_C10_narrative_not_total (T : Thresholds) (sh th : List ℚ)
    (pv : Option ℚ) (r : Row) (trend : ℚ) (drivers : String)
    (hk : isKanban r = false) (he : hasEvm r = false)
    (hpd : r.planned_end_date.isSome = true)
    (hfd : r.forecast_end_date.isSome = true) :
    rawCpiOfRow T sh th pv r = some none ∧
    narrativeOfRow T sh th pv r trend drivers =
      some (Except.error "TypeError: unsupported comparison between NoneType and float") := by
  obtain ⟨pe, hpe⟩ := Option.isSome_iff_exists.mp hpd
  obtain ⟨fe, hfe⟩ := Option.isSome_iff_exists.mp hfd
  have hkneq : (r.delivery_framework == "kanban") = false := hk
  have hne : r.delivery_framework ≠ "kanban" := by
    intro hcontra
    rw [isKanban, hcontra] at hk
    simp at hk
  constructor
  · rw [rawCpiOfRow, scoreRowRec, scoreRow,
      if_neg (by simp only [isKanban, beq_iff_eq]; exact hne), hpe, hfe]
    simp [Except.toOption, he]
  · rw [narrativeOfRow, scoreRowRec, scoreRow,
      if_neg (by simp only [isKanban, beq_iff_eq]; exact hne), hpe, hfe]
    simp only [Except.toOption, Option.map_some', Option.some.injEq]
    rw [generate_narrative]
    obtain ⟨p, hp⟩ := topDetractor_planned_isSome T r (fe - pe)
    rw [hp]
    rcases p with ⟨td, gap⟩
    simp only [hkneq, Bool.false_eq_true, if_false, he, pyLtOpt]

/-- C10 witness: the concrete planned row without EVM data produces a record
with `cpi = None`, and narrative generation on it raises the TypeError. -/
theorem claim_C10_witness :
    rawCpiOfRow DEFAULT_THRESHOLDS [] [] none c9Row1 = some none ∧
    narrativeOfRow DEFAULT_THRESHOLDS [] [] none c9Row1 0 "multiple signals" =
      some (Except.error "TypeError: unsupported comparison between NoneType and float") :=
  claim_C10_narrative_not_total DEFAULT_THRESHOLDS [] [] none c9Row1 0
    "multiple signals" (by decide) (by decide) rfl rfl

end Dashboard
